import Mathlib

/-!
Verification of the distributor shop-count reconciliation and legacy-shop
deduplication subsystem (shop controller: syncDistributorShopCounts,
getShopsByDistributor, addShop, updateShop, deleteShop).

The database is modelled as explicit state: a list of canonical Shop
records and a list of Distributor documents carrying the legacy embedded
arrays and the cached counts.  Each controller operation is a pure
function from a database state (plus request data) to a response and the
new database state.
-/

/-- Shop type enumeration: Retailer or Whole Seller. -/
inductive ShopType where
  | Retailer
  | WholeSeller
deriving DecidableEq, Repr

/-- Canonical Shop record (the Shop collection). -/
structure Shop where
  id : Nat
  name : String
  ownerName : String
  address : String
  type : ShopType
  distributorId : Nat
  isActive : Bool
  createdBy : Nat
deriving DecidableEq, Repr

/-- Legacy shop entry embedded in a distributor document
(retailShops / wholesaleShops array element). -/
structure LegacyEntry where
  id : Nat
  shopName : String
  ownerName : String
  address : String
deriving DecidableEq, Repr

/-- Distributor document: legacy arrays plus cached counts. -/
structure Distributor where
  id : Nat
  retailShops : List LegacyEntry
  wholesaleShops : List LegacyEntry
  retailShopCount : Nat
  wholesaleShopCount : Nat
deriving DecidableEq, Repr

/-- The database state: both collections plus fresh-id counters for
newly created documents and embedded entries. -/
structure DB where
  shops : List Shop
  distributors : List Distributor
  nextShopId : Nat
  nextLegacyId : Nat
deriving DecidableEq, Repr

/-- Errors surfaced to the HTTP layer. -/
inductive ApiError where
  | NotFound
  | Conflict
  | ServerError
deriving DecidableEq, Repr

/-- Lowercasing as toLowerCase performs it: each character mapped to its
lower-case form. -/
def lowerString (s : String) : String :=
  String.mk (s.data.map Char.toLower)

/-- Identity key: the lowercased dash-separated concatenation of
name, ownerName and address (template literal then toLowerCase). -/
def deriveKey (name ownerName address : String) : String :=
  lowerString (name ++ "-" ++ ownerName ++ "-" ++ address)

/-- Identity key of a canonical shop record. -/
def Shop.key (s : Shop) : String :=
  deriveKey s.name s.ownerName s.address

/-- Identity key of a legacy embedded entry. -/
def LegacyEntry.key (e : LegacyEntry) : String :=
  deriveKey e.shopName e.ownerName e.address

/-- Shop.findById. -/
def findShop (db : DB) (i : Nat) : Option Shop :=
  db.shops.find? (fun s => s.id == i)

/-- Distributor.findById. -/
def findDistributor (db : DB) (i : Nat) : Option Distributor :=
  db.distributors.find? (fun d => d.id == i)

/-- Shop.findByIdAndUpdate: apply an update to every shop document whose
id matches (ids are unique in the real store; the model applies the update
to each match). -/
def updateShopById (db : DB) (i : Nat) (f : Shop → Shop) : DB :=
  { db with shops := db.shops.map (fun s => if s.id == i then f s else s) }

/-- Distributor.findByIdAndUpdate. -/
def updateDistributorById (db : DB) (i : Nat) (f : Distributor → Distributor) : DB :=
  { db with distributors := db.distributors.map (fun d => if d.id == i then f d else d) }

/-- Selected legacy array of a distributor by shop type
(retailShops for Retailer, wholesaleShops otherwise). -/
def Distributor.arrayFor (d : Distributor) (t : ShopType) : List LegacyEntry :=
  if t == ShopType.Retailer then d.retailShops else d.wholesaleShops

/-- Push update on the legacy array selected by type. -/
def pushLegacy (db : DB) (did : Nat) (t : ShopType) (e : LegacyEntry) : DB :=
  updateDistributorById db did (fun d =>
    if t == ShopType.Retailer then { d with retailShops := d.retailShops ++ [e] }
    else { d with wholesaleShops := d.wholesaleShops ++ [e] })

/-- Pull update on the legacy array selected by type: removes every entry
whose shopName, ownerName and address all match exactly. -/
def pullLegacy (db : DB) (did : Nat) (t : ShopType)
    (shopName ownerName address : String) : DB :=
  updateDistributorById db did (fun d =>
    if t == ShopType.Retailer then
      { d with retailShops := d.retailShops.filter (fun e =>
          !(e.shopName == shopName && e.ownerName == ownerName && e.address == address)) }
    else
      { d with wholesaleShops := d.wholesaleShops.filter (fun e =>
          !(e.shopName == shopName && e.ownerName == ownerName && e.address == address)) })

/-- Totals computed by the body of syncDistributorShopCounts: count of
active Shop records per type, plus legacy entries whose identity key does
not appear among the keys of the matching Shop records. -/
def syncTotals (db : DB) (distributorId : Nat) (distributor : Distributor) : Nat × Nat :=
  let retailShopsCount := (db.shops.filter (fun s =>
    s.distributorId == distributorId && s.type == ShopType.Retailer && s.isActive)).length
  let wholesaleShopsCount := (db.shops.filter (fun s =>
    s.distributorId == distributorId && s.type == ShopType.WholeSeller && s.isActive)).length
  let shopsFromCollection := db.shops.filter (fun s =>
    s.distributorId == distributorId && s.isActive)
  let retailShopKeys := (shopsFromCollection.filter
    (fun s => s.type == ShopType.Retailer)).map Shop.key
  let wholesaleShopKeys := (shopsFromCollection.filter
    (fun s => !(s.type == ShopType.Retailer))).map Shop.key
  let uniqueLegacyRetailCount := (distributor.retailShops.filter (fun e =>
    !(retailShopKeys.contains e.key))).length
  let uniqueLegacyWholesaleCount := (distributor.wholesaleShops.filter (fun e =>
    !(wholesaleShopKeys.contains e.key))).length
  (retailShopsCount + uniqueLegacyRetailCount,
   wholesaleShopsCount + uniqueLegacyWholesaleCount)

/-- Reconciler: syncDistributorShopCounts.  Returns the new database state
together with a flag recording whether a count write was performed. -/
def syncDistributorShopCounts (db : DB) (distributorId : Nat) : DB × Bool :=
  match findDistributor db distributorId with
  | none => (db, false)
  | some distributor =>
    let totals := syncTotals db distributorId distributor
    if totals.1 != distributor.retailShopCount ||
        totals.2 != distributor.wholesaleShopCount then
      (updateDistributorById db distributorId (fun d =>
        { d with retailShopCount := totals.1,
                 wholesaleShopCount := totals.2 }), true)
    else
      (db, false)

/-- View object returned by getShopsByDistributor: either a canonical
shop record serialised as-is (isLegacy false) or a mapped legacy entry
(isLegacy true). -/
structure ShopView where
  id : Nat
  name : String
  ownerName : String
  address : String
  type : ShopType
  distributorId : Nat
  isLegacy : Bool
  isActive : Bool
deriving DecidableEq, Repr

/-- Serialisation of a canonical shop record into the response shape. -/
def Shop.toView (s : Shop) : ShopView :=
  { id := s.id, name := s.name, ownerName := s.ownerName, address := s.address,
    type := s.type, distributorId := s.distributorId, isLegacy := false,
    isActive := s.isActive }

/-- Lexicographic character-code comparison of character lists. -/
def strLe : List Char → List Char → Bool
  | [], _ => true
  | _ :: _, [] => false
  | a :: as, b :: bs =>
    if a.toNat < b.toNat then true
    else if a.toNat = b.toNat then strLe as bs
    else false

/-- Ascending string comparison used to model the name sort (Mongo
name ascending and localeCompare). -/
def nameLe (a b : String) : Bool :=
  strLe a.data b.data

/-- Name comparison used for both the collection sort and the final sort. -/
def viewNameLe (a b : ShopView) : Bool :=
  nameLe a.name b.name

/-- Insertion of an element into a list assumed sorted by le: placed
before the first element it compares le-true against. -/
def insertSorted {α : Type} (le : α → α → Bool) (a : α) : List α → List α
  | [] => [a]
  | b :: l => if le a b then a :: b :: l else b :: insertSorted le a l

/-- Structural insertion sort used to model the ascending name sort of
the listing (Array.prototype.sort with localeCompare). -/
def sortByLe {α : Type} (le : α → α → Bool) : List α → List α
  | [] => []
  | a :: l => insertSorted le a (sortByLe le l)

/-- Query built by getShopsByDistributor: distributorId and isActive
always, plus the type when a type filter is supplied. -/
def shopMatchesQuery (s : Shop) (distributorId : Nat)
    (typeFilter : Option ShopType) : Bool :=
  s.distributorId == distributorId && s.isActive &&
    (match typeFilter with
     | none => true
     | some t => s.type == t)

/-- Controller getShopsByDistributor: merge active Shop records with
legacy entries whose identity key has no counterpart among the returned
records, tag legacy-only entries, sort by name, and run the Reconciler
before responding. -/
def getShopsByDistributor (db : DB) (distributorId : Nat)
    (typeFilter : Option ShopType) : Except ApiError (List ShopView) × DB :=
  match findDistributor db distributorId with
  | none => (Except.error ApiError.NotFound, db)
  | some distributor =>
    let shopCollectionShops := sortByLe (fun a b => nameLe a.name b.name)
      (db.shops.filter (fun s => shopMatchesQuery s distributorId typeFilter))
    let shopCollectionKeys := shopCollectionShops.map Shop.key
    let baseViews := shopCollectionShops.map Shop.toView
    let retailViews :=
      if typeFilter == none || typeFilter == some ShopType.Retailer then
        distributor.retailShops.filterMap (fun e =>
          if shopCollectionKeys.contains e.key then none
          else some { id := e.id, name := e.shopName, ownerName := e.ownerName,
                      address := e.address, type := ShopType.Retailer,
                      distributorId := distributorId, isLegacy := true,
                      isActive := true })
      else []
    let wholesaleViews :=
      if typeFilter == none || typeFilter == some ShopType.WholeSeller then
        distributor.wholesaleShops.filterMap (fun e =>
          if shopCollectionKeys.contains e.key then none
          else some { id := e.id, name := e.shopName, ownerName := e.ownerName,
                      address := e.address, type := ShopType.WholeSeller,
                      distributorId := distributorId, isLegacy := true,
                      isActive := true })
      else []
    let allShops := sortByLe viewNameLe (baseViews ++ retailViews ++ wholesaleViews)
    let db1 := (syncDistributorShopCounts db distributorId).1
    (Except.ok allShops, db1)

/-- Request body of addShop. -/
structure AddShopInput where
  name : String
  ownerName : String
  address : String
  type : ShopType
  distributorId : Nat
  createdBy : Nat
deriving DecidableEq, Repr

/-- Controller addShop: NotFound if the distributor is absent, Conflict if
an active shop with the same name exists for the distributor; otherwise
create the shop, mirror it into the legacy array when no entry with the
same exact shopName/ownerName/address exists there, then sync counts. -/
def addShop (db : DB) (inp : AddShopInput) : Except ApiError Shop × DB :=
  match findDistributor db inp.distributorId with
  | none => (Except.error ApiError.NotFound, db)
  | some distributor =>
    match db.shops.find? (fun s =>
        s.name == inp.name && s.distributorId == inp.distributorId && s.isActive) with
    | some _ => (Except.error ApiError.Conflict, db)
    | none =>
      let shop : Shop :=
        { id := db.nextShopId, name := inp.name, ownerName := inp.ownerName,
          address := inp.address, type := inp.type,
          distributorId := inp.distributorId, isActive := true,
          createdBy := inp.createdBy }
      let db1 : DB := { db with shops := db.shops ++ [shop],
                                nextShopId := db.nextShopId + 1 }
      let shopArray := distributor.arrayFor inp.type
      let shopExists := shopArray.any (fun s =>
        s.shopName == inp.name && s.ownerName == inp.ownerName &&
          s.address == inp.address)
      let db2 :=
        if !shopExists then
          pushLegacy { db1 with nextLegacyId := db1.nextLegacyId + 1 }
            inp.distributorId inp.type
            { id := db1.nextLegacyId, shopName := inp.name,
              ownerName := inp.ownerName, address := inp.address }
        else db1
      let db3 := (syncDistributorShopCounts db2 inp.distributorId).1
      (Except.ok shop, db3)

/-- Request body of updateShop: absent fields keep their current values. -/
structure UpdateShopInput where
  name : Option String
  ownerName : Option String
  address : Option String
  type : Option ShopType
  distributorId : Option Nat
deriving DecidableEq, Repr

/-- Positional in-place patch of the first legacy entry of the selected
array matching the given exact shopName/ownerName/address, setting the
supplied fields. -/
def patchLegacy (db : DB) (did : Nat) (t : ShopType)
    (shopName ownerName address : String) (inp : UpdateShopInput) : DB :=
  updateDistributorById db did (fun d =>
    let patchList := fun (l : List LegacyEntry) =>
      match l.findIdx? (fun e =>
          e.shopName == shopName && e.ownerName == ownerName &&
            e.address == address) with
      | none => l
      | some i =>
        l.set i (match l.get? i with
          | none => { id := 0, shopName := shopName, ownerName := ownerName,
                      address := address }
          | some e =>
            { e with shopName := inp.name.getD e.shopName,
                     ownerName := inp.ownerName.getD e.ownerName,
                     address := inp.address.getD e.address })
    if t == ShopType.Retailer then { d with retailShops := patchList d.retailShops }
    else { d with wholesaleShops := patchList d.wholesaleShops })

/-- Controller updateShop.  The shop document is updated first; the
variable shop is then rebound to the updated document (new true), so the
subsequent legacy-array pull and lookup use the post-update field
values. -/
def updateShop (db : DB) (shopId : Nat) (inp : UpdateShopInput) :
    Except ApiError Shop × DB :=
  match findShop db shopId with
  | none => (Except.error ApiError.NotFound, db)
  | some shop0 =>
    let originalType := shop0.type
    let originalDistributorId := shop0.distributorId
    let newType := inp.type.getD originalType
    let newDistributorId := inp.distributorId.getD originalDistributorId
    let newDistMissing :=
      match inp.distributorId with
      | none => false
      | some nd => nd != originalDistributorId && (findDistributor db nd).isNone
    if newDistMissing then (Except.error ApiError.NotFound, db)
    else
      let shop : Shop :=
        { shop0 with name := inp.name.getD shop0.name,
                     ownerName := inp.ownerName.getD shop0.ownerName,
                     address := inp.address.getD shop0.address,
                     type := newType,
                     distributorId := newDistributorId }
      let db1 := updateShopById db shopId (fun _ => shop)
      match findDistributor db1 originalDistributorId with
      | none => (Except.ok shop, db1)
      | some originalDistributor =>
        let db2 :=
          if newDistributorId != originalDistributorId || newType != originalType then
            let dbP := pullLegacy db1 originalDistributorId originalType
              shop.name shop.ownerName shop.address
            if newDistributorId != originalDistributorId then
              pushLegacy { dbP with nextLegacyId := dbP.nextLegacyId + 1 }
                newDistributorId newType
                { id := dbP.nextLegacyId,
                  shopName := inp.name.getD shop.name,
                  ownerName := inp.ownerName.getD shop.ownerName,
                  address := inp.address.getD shop.address }
            else if newType != originalType then
              pushLegacy { dbP with nextLegacyId := dbP.nextLegacyId + 1 }
                originalDistributorId newType
                { id := dbP.nextLegacyId,
                  shopName := inp.name.getD shop.name,
                  ownerName := inp.ownerName.getD shop.ownerName,
                  address := inp.address.getD shop.address }
            else dbP
          else if inp.name.isSome || inp.ownerName.isSome || inp.address.isSome then
            let shops := originalDistributor.arrayFor originalType
            match shops.findIdx? (fun s =>
                s.shopName == shop.name && s.ownerName == shop.ownerName &&
                  s.address == shop.address) with
            | some _ =>
              if inp.name.isSome || inp.ownerName.isSome || inp.address.isSome then
                patchLegacy db1 originalDistributorId originalType
                  shop.name shop.ownerName shop.address inp
              else db1
            | none => db1
          else db1
        let db3 := (syncDistributorShopCounts db2 originalDistributorId).1
        let db4 :=
          if newDistributorId != originalDistributorId then
            (syncDistributorShopCounts db3 newDistributorId).1
          else db3
        (Except.ok shop, db4)

/-- Controller deleteShop: soft delete (isActive false), remove the
exactly matching legacy entry when present, sync counts. -/
def deleteShop (db : DB) (shopId : Nat) : Except ApiError Unit × DB :=
  match findShop db shopId with
  | none => (Except.error ApiError.NotFound, db)
  | some shop =>
    let db1 := updateShopById db shopId (fun s => { s with isActive := false })
    match findDistributor db1 shop.distributorId with
    | none => (Except.ok (), db1)
    | some distributor =>
      let shops := distributor.arrayFor shop.type
      let shopIndex := shops.findIdx? (fun s =>
        s.shopName == shop.name && s.ownerName == shop.ownerName &&
          s.address == shop.address)
      let db2 :=
        if shopIndex.isSome then
          pullLegacy db1 shop.distributorId shop.type
            shop.name shop.ownerName shop.address
        else db1
      let db3 := (syncDistributorShopCounts db2 shop.distributorId).1
      (Except.ok (), db3)

/-!
### Specification-side definitions

These definitions follow the wording of the specification and of the
claims (not the code); the theorems below compare them with the
behaviour of the translated operations.
-/

/-- Identity-key set of the active Retailer Shop records of a
distributor, as the spec words it. -/
def specRetailKeys (db : DB) (did : Nat) : List String :=
  (db.shops.filter (fun s =>
    s.isActive && s.type == ShopType.Retailer && s.distributorId == did)).map Shop.key

/-- Identity-key set of the active Whole Seller Shop records of a
distributor, as the spec words it. -/
def specWholesaleKeys (db : DB) (did : Nat) : List String :=
  (db.shops.filter (fun s =>
    s.isActive && s.type == ShopType.WholeSeller && s.distributorId == did)).map Shop.key

/-- Spec total for retail: count of active Retailer Shop records plus the
count of retail legacy entries whose identity key is not present in the
key set built from those records. -/
def specTotalRetail (db : DB) (did : Nat) (d : Distributor) : Nat :=
  (db.shops.filter (fun s =>
    s.isActive && s.type == ShopType.Retailer && s.distributorId == did)).length +
  d.retailShops.countP (fun e => !((specRetailKeys db did).contains e.key))

/-- Spec total for wholesale, symmetric to specTotalRetail. -/
def specTotalWholesale (db : DB) (did : Nat) (d : Distributor) : Nat :=
  (db.shops.filter (fun s =>
    s.isActive && s.type == ShopType.WholeSeller && s.distributorId == did)).length +
  d.wholesaleShops.countP (fun e => !((specWholesaleKeys db did).contains e.key))

/-- Number of distinct identity keys obtained by merging the active Shop
records of the given type with the legacy entries of that type and
deduplicating by identity key (the count the C1 claim asserts the
persisted counters equal). -/
def mergedDistinctKeyCount (db : DB) (d : Distributor) (t : ShopType) : Nat :=
  (((db.shops.filter (fun s =>
      s.isActive && s.type == t && s.distributorId == d.id)).map Shop.key) ++
    ((if t == ShopType.Retailer then d.retailShops else d.wholesaleShops).map
      LegacyEntry.key)).dedup.length

/-- The consistency relation the Reconciler is meant to restore: the
persisted counters of the distributor with the given id equal the totals
recomputed from the current state. -/
def countsConsistent (db : DB) (did : Nat) : Prop :=
  ∀ d, findDistributor db did = some d →
    d.retailShopCount = (syncTotals db did d).1 ∧
    d.wholesaleShopCount = (syncTotals db did d).2

/-- View of a legacy entry as the listing returns it, as the spec words
the mapping. -/
def specLegacyView (e : LegacyEntry) (t : ShopType) (did : Nat) : ShopView :=
  { id := e.id, name := e.shopName, ownerName := e.ownerName,
    address := e.address, type := t, distributorId := did,
    isLegacy := true, isActive := true }

/-- Spec-side membership test for the listing: active, owned by the
distributor, and of the filtered type when a filter is supplied. -/
def specShopMatches (s : Shop) (did : Nat) (typeFilter : Option ShopType) : Bool :=
  s.isActive && s.distributorId == did &&
    (match typeFilter with
     | none => true
     | some t => s.type == t)

/-- Merged listing as the spec words it: active Shop records (restricted
by the optional type filter) together with the legacy entries of the
permitted arrays whose identity key matches no returned Shop record. -/
def specViewsFor (db : DB) (did : Nat) (typeFilter : Option ShopType)
    (d : Distributor) : List ShopView :=
  let activeShops := db.shops.filter (fun s => specShopMatches s did typeFilter)
  let activeKeys := activeShops.map Shop.key
  let legacyRetail :=
    if typeFilter = none ∨ typeFilter = some ShopType.Retailer then
      (d.retailShops.filter (fun e => !(activeKeys.contains e.key))).map
        (fun e => specLegacyView e ShopType.Retailer did)
    else []
  let legacyWholesale :=
    if typeFilter = none ∨ typeFilter = some ShopType.WholeSeller then
      (d.wholesaleShops.filter (fun e => !(activeKeys.contains e.key))).map
        (fun e => specLegacyView e ShopType.WholeSeller did)
    else []
  activeShops.map Shop.toView ++ legacyRetail ++ legacyWholesale

/-- Shop record created by a successful addShop call. -/
def createdShop (db : DB) (inp : AddShopInput) : Shop :=
  { id := db.nextShopId, name := inp.name, ownerName := inp.ownerName,
    address := inp.address, type := inp.type,
    distributorId := inp.distributorId, isActive := true,
    createdBy := inp.createdBy }

/-- Variant of addShop with failure injection for the two best-effort
secondary steps.  The legacy-mirror write and the Reconciler internals
are asynchronous document-store writes that can fail; mirrorOk / syncOk
say whether they succeed.  A throwing mirror write is caught by the
controller's outer catch block, which logs and forwards the error to the
error middleware (next(error)), so the request is answered with an error
even though the Shop record was already created; the Reconciler has its
own internal try/catch, so its failure leaves the counts stale but the
request still succeeds. -/
def addShopF (db : DB) (inp : AddShopInput) (mirrorOk syncOk : Bool) :
    Except ApiError Shop × DB :=
  match findDistributor db inp.distributorId with
  | none => (Except.error ApiError.NotFound, db)
  | some distributor =>
    match db.shops.find? (fun s =>
        s.name == inp.name && s.distributorId == inp.distributorId && s.isActive) with
    | some _ => (Except.error ApiError.Conflict, db)
    | none =>
      let shop := createdShop db inp
      let db1 : DB := { db with shops := db.shops ++ [shop],
                                nextShopId := db.nextShopId + 1 }
      let shopArray := distributor.arrayFor inp.type
      let shopExists := shopArray.any (fun s =>
        s.shopName == inp.name && s.ownerName == inp.ownerName &&
          s.address == inp.address)
      if !shopExists then
        if mirrorOk then
          let db2 := pushLegacy { db1 with nextLegacyId := db1.nextLegacyId + 1 }
            inp.distributorId inp.type
            { id := db1.nextLegacyId, shopName := inp.name,
              ownerName := inp.ownerName, address := inp.address }
          let db3 := if syncOk then (syncDistributorShopCounts db2 inp.distributorId).1 else db2
          (Except.ok shop, db3)
        else
          (Except.error ApiError.ServerError, db1)
      else
        let db3 := if syncOk then (syncDistributorShopCounts db1 inp.distributorId).1 else db1
        (Except.ok shop, db3)

/-- Updated Shop document produced by updateShop: supplied fields replace
the current values, absent fields keep them. -/
def updatedShop (s0 : Shop) (inp : UpdateShopInput) : Shop :=
  { s0 with name := inp.name.getD s0.name,
            ownerName := inp.ownerName.getD s0.ownerName,
            address := inp.address.getD s0.address,
            type := inp.type.getD s0.type,
            distributorId := inp.distributorId.getD s0.distributorId }

/-- Whether updateShop attempts a Legacy Mirror write: always when the
distributor or the type changes (the pull runs unconditionally there);
otherwise, when a name/owner/address field was supplied, exactly when a
legacy entry matching the post-update values exists (the positional
in-place update); never in the remaining cases. -/
def updateShopMirrorAttempted (inp : UpdateShopInput) (s0 : Shop)
    (dOrig : Distributor) : Bool :=
  let shop := updatedShop s0 inp
  if shop.distributorId != s0.distributorId || shop.type != s0.type then true
  else if inp.name.isSome || inp.ownerName.isSome || inp.address.isSome then
    ((dOrig.arrayFor s0.type).findIdx? (fun s =>
      s.shopName == shop.name && s.ownerName == shop.ownerName &&
        s.address == shop.address)).isSome
  else false

/-- Variant of updateShop with failure injection for the best-effort
secondary steps.  A throwing Legacy Mirror write (modelled at the first
attempted mirror write, before it takes effect) is caught by the
controller's outer catch which logs and forwards the error
(next(error)), so the request is answered with an error although the
Shop document was already updated; the Reconciler calls have their own
internal try/catch, so their failure leaves the counts stale but the
request still succeeds. -/
def updateShopF (db : DB) (shopId : Nat) (inp : UpdateShopInput)
    (mirrorOk syncOk : Bool) : Except ApiError Shop × DB :=
  match findShop db shopId with
  | none => (Except.error ApiError.NotFound, db)
  | some shop0 =>
    let originalType := shop0.type
    let originalDistributorId := shop0.distributorId
    let newType := inp.type.getD originalType
    let newDistributorId := inp.distributorId.getD originalDistributorId
    let newDistMissing :=
      match inp.distributorId with
      | none => false
      | some nd => nd != originalDistributorId && (findDistributor db nd).isNone
    if newDistMissing then (Except.error ApiError.NotFound, db)
    else
      let shop : Shop :=
        { shop0 with name := inp.name.getD shop0.name,
                     ownerName := inp.ownerName.getD shop0.ownerName,
                     address := inp.address.getD shop0.address,
                     type := newType,
                     distributorId := newDistributorId }
      let db1 := updateShopById db shopId (fun _ => shop)
      match findDistributor db1 originalDistributorId with
      | none => (Except.ok shop, db1)
      | some originalDistributor =>
        if updateShopMirrorAttempted inp shop0 originalDistributor && !mirrorOk then
          (Except.error ApiError.ServerError, db1)
        else
          let db2 :=
            if newDistributorId != originalDistributorId || newType != originalType then
              let dbP := pullLegacy db1 originalDistributorId originalType
                shop.name shop.ownerName shop.address
              if newDistributorId != originalDistributorId then
                pushLegacy { dbP with nextLegacyId := dbP.nextLegacyId + 1 }
                  newDistributorId newType
                  { id := dbP.nextLegacyId,
                    shopName := inp.name.getD shop.name,
                    ownerName := inp.ownerName.getD shop.ownerName,
                    address := inp.address.getD shop.address }
              else if newType != originalType then
                pushLegacy { dbP with nextLegacyId := dbP.nextLegacyId + 1 }
                  originalDistributorId newType
                  { id := dbP.nextLegacyId,
                    shopName := inp.name.getD shop.name,
                    ownerName := inp.ownerName.getD shop.ownerName,
                    address := inp.address.getD shop.address }
              else dbP
            else if inp.name.isSome || inp.ownerName.isSome || inp.address.isSome then
              match (originalDistributor.arrayFor originalType).findIdx? (fun s =>
                  s.shopName == shop.name && s.ownerName == shop.ownerName &&
                    s.address == shop.address) with
              | some _ =>
                if inp.name.isSome || inp.ownerName.isSome || inp.address.isSome then
                  patchLegacy db1 originalDistributorId originalType
                    shop.name shop.ownerName shop.address inp
                else db1
              | none => db1
            else db1
          let db3 := if syncOk then
              (syncDistributorShopCounts db2 originalDistributorId).1
            else db2
          let db4 :=
            if newDistributorId != originalDistributorId then
              if syncOk then (syncDistributorShopCounts db3 newDistributorId).1 else db3
            else db3
          (Except.ok shop, db4)

/-- Variant of deleteShop with failure injection for the best-effort
secondary steps, with the same conventions as updateShopF: a throwing
pull is forwarded to the error middleware after the soft delete already
committed; a Reconciler failure is swallowed. -/
def deleteShopF (db : DB) (shopId : Nat) (mirrorOk syncOk : Bool) :
    Except ApiError Unit × DB :=
  match findShop db shopId with
  | none => (Except.error ApiError.NotFound, db)
  | some shop =>
    let db1 := updateShopById db shopId (fun s => { s with isActive := false })
    match findDistributor db1 shop.distributorId with
    | none => (Except.ok (), db1)
    | some distributor =>
      let shops := distributor.arrayFor shop.type
      let shopIndex := shops.findIdx? (fun s =>
        s.shopName == shop.name && s.ownerName == shop.ownerName &&
          s.address == shop.address)
      if shopIndex.isSome then
        if mirrorOk then
          let db2 := pullLegacy db1 shop.distributorId shop.type
            shop.name shop.ownerName shop.address
          let db3 := if syncOk then
              (syncDistributorShopCounts db2 shop.distributorId).1
            else db2
          (Except.ok (), db3)
        else
          (Except.error ApiError.ServerError, db1)
      else
        let db3 := if syncOk then
            (syncDistributorShopCounts db1 shop.distributorId).1
          else db1
        (Except.ok (), db3)

/-- Variant of getShopsByDistributor with failure injection for its only
best-effort secondary step, the Reconciler call: its internal try/catch
swallows the failure, so the response is produced unchanged. -/
def getShopsByDistributorF (db : DB) (distributorId : Nat)
    (typeFilter : Option ShopType) (syncOk : Bool) :
    Except ApiError (List ShopView) × DB :=
  match findDistributor db distributorId with
  | none => (Except.error ApiError.NotFound, db)
  | some distributor =>
    let shopCollectionShops := sortByLe (fun a b => nameLe a.name b.name)
      (db.shops.filter (fun s => shopMatchesQuery s distributorId typeFilter))
    let shopCollectionKeys := shopCollectionShops.map Shop.key
    let baseViews := shopCollectionShops.map Shop.toView
    let retailViews :=
      if typeFilter == none || typeFilter == some ShopType.Retailer then
        distributor.retailShops.filterMap (fun e =>
          if shopCollectionKeys.contains e.key then none
          else some { id := e.id, name := e.shopName, ownerName := e.ownerName,
                      address := e.address, type := ShopType.Retailer,
                      distributorId := distributorId, isLegacy := true,
                      isActive := true })
      else []
    let wholesaleViews :=
      if typeFilter == none || typeFilter == some ShopType.WholeSeller then
        distributor.wholesaleShops.filterMap (fun e =>
          if shopCollectionKeys.contains e.key then none
          else some { id := e.id, name := e.shopName, ownerName := e.ownerName,
                      address := e.address, type := ShopType.WholeSeller,
                      distributorId := distributorId, isLegacy := true,
                      isActive := true })
      else []
    let allShops := sortByLe viewNameLe (baseViews ++ retailViews ++ wholesaleViews)
    let db1 := if syncOk then (syncDistributorShopCounts db distributorId).1 else db
    (Except.ok allShops, db1)

/-!
### Concrete states used as test fixtures
-/

/-- A database with a single empty distributor. -/
def dbOneDistributor : DB :=
  { shops := [],
    distributors := [{ id := 1, retailShops := [], wholesaleShops := [],
                       retailShopCount := 0, wholesaleShopCount := 0 }],
    nextShopId := 100, nextLegacyId := 50 }

/-- Request used against dbOneDistributor. -/
def inpNandu : AddShopInput :=
  { name := "Nandu Shop", ownerName := "Ram", address := "Delhi",
    type := ShopType.Retailer, distributorId := 1, createdBy := 7 }

/-- Distributor holding one retail legacy entry A/B/C. -/
def distributorDedup : Distributor :=
  { id := 1,
    retailShops := [{ id := 1, shopName := "A", ownerName := "B", address := "C" }],
    wholesaleShops := [], retailShopCount := 0, wholesaleShopCount := 0 }

/-- Database with one active Retailer shop A/B/C mirrored by an identical
legacy entry (the dedup scenario of the spec). -/
def dbDedup : DB :=
  { shops := [{ id := 5, name := "A", ownerName := "B", address := "C",
                type := ShopType.Retailer, distributorId := 1, isActive := true,
                createdBy := 0 }],
    distributors := [distributorDedup],
    nextShopId := 6, nextLegacyId := 2 }

/-- Database whose distributor has two retail legacy entries sharing one
identity key (they differ only in letter case). -/
def dbDupKeys : DB :=
  { shops := [],
    distributors := [
      { id := 1,
        retailShops := [{ id := 1, shopName := "A", ownerName := "B", address := "C" },
                        { id := 2, shopName := "a", ownerName := "b", address := "c" }],
        wholesaleShops := [], retailShopCount := 0, wholesaleShopCount := 0 }],
    nextShopId := 10, nextLegacyId := 3 }

/-- Database for the transfer scenario: shop A/B/C at distributor 1 with a
matching legacy entry, plus an empty distributor 2. -/
def dbTransfer : DB :=
  { shops := [{ id := 10, name := "A", ownerName := "B", address := "C",
                type := ShopType.Retailer, distributorId := 1, isActive := true,
                createdBy := 0 }],
    distributors := [
      { id := 1,
        retailShops := [{ id := 1, shopName := "A", ownerName := "B", address := "C" }],
        wholesaleShops := [], retailShopCount := 1, wholesaleShopCount := 0 },
      { id := 2, retailShops := [], wholesaleShops := [],
        retailShopCount := 0, wholesaleShopCount := 0 }],
    nextShopId := 11, nextLegacyId := 5 }

/-- Update request renaming the shop to D and moving it to distributor 2. -/
def inpTransfer : UpdateShopInput :=
  { name := some "D", ownerName := none, address := none, type := none,
    distributorId := some 2 }

/-- Distributor holding a single lowercase retail legacy entry a/b/c. -/
def distributorCaseLegacy : Distributor :=
  { id := 1,
    retailShops := [{ id := 1, shopName := "a", ownerName := "b", address := "c" }],
    wholesaleShops := [], retailShopCount := 1, wholesaleShopCount := 0 }

/-- Database whose distributor holds a lowercase legacy entry a/b/c. -/
def dbCaseLegacy : DB :=
  { shops := [],
    distributors := [distributorCaseLegacy],
    nextShopId := 20, nextLegacyId := 2 }

/-- Add request differing from the stored legacy entry only in case. -/
def inpCaseLegacy : AddShopInput :=
  { name := "A", ownerName := "B", address := "C", type := ShopType.Retailer,
    distributorId := 1, createdBy := 3 }

/-- Database with one active shop S/O/Ad and its matching legacy entry. -/
def dbDelete : DB :=
  { shops := [{ id := 4, name := "S", ownerName := "O", address := "Ad",
                type := ShopType.Retailer, distributorId := 1, isActive := true,
                createdBy := 0 }],
    distributors := [
      { id := 1,
        retailShops := [{ id := 1, shopName := "S", ownerName := "O", address := "Ad" }],
        wholesaleShops := [], retailShopCount := 1, wholesaleShopCount := 0 }],
    nextShopId := 5, nextLegacyId := 2 }

/-- Database where a retail legacy entry shares its identity key with an
active Whole Seller shop of the same distributor. -/
def dbCrossType : DB :=
  { shops := [{ id := 20, name := "a", ownerName := "b", address := "c",
                type := ShopType.WholeSeller, distributorId := 1, isActive := true,
                createdBy := 0 }],
    distributors := [
      { id := 1,
        retailShops := [{ id := 1, shopName := "a", ownerName := "b", address := "c" }],
        wholesaleShops := [], retailShopCount := 0, wholesaleShopCount := 0 }],
    nextShopId := 21, nextLegacyId := 2 }

/-- Database with one active Retailer shop x/y/z and one retail legacy
entry p/q/r with a different identity key. -/
def dbMixed : DB :=
  { shops := [{ id := 7, name := "x", ownerName := "y", address := "z",
                type := ShopType.Retailer, distributorId := 1, isActive := true,
                createdBy := 0 }],
    distributors := [
      { id := 1,
        retailShops := [{ id := 1, shopName := "p", ownerName := "q", address := "r" }],
        wholesaleShops := [], retailShopCount := 2, wholesaleShopCount := 0 }],
    nextShopId := 8, nextLegacyId := 2 }

/-!
### Helper lemmas
-/

theorem find?_map_pred_inv {α : Type} (q : α → Bool) (g : α → α)
    (hg : ∀ a, q (g a) = q a) (l : List α) :
    (l.map g).find? q = Option.map g (l.find? q) := by
  induction l with
  | nil => rfl
  | cons a l ih =>
    rw [List.map_cons]
    cases h : q a with
    | true =>
      rw [List.find?_cons_of_pos _ ((hg a).trans h), List.find?_cons_of_pos _ h,
        Option.map_some']
    | false =>
      rw [List.find?_cons_of_neg, List.find?_cons_of_neg, ih]
      · simp [h]
      · simp [hg, h]

theorem findDistributor_update (db : DB) (i j : Nat) (f : Distributor → Distributor)
    (hf : ∀ d, (f d).id = d.id) :
    findDistributor (updateDistributorById db i f) j =
      Option.map (fun d => if d.id == i then f d else d) (findDistributor db j) := by
  unfold findDistributor updateDistributorById
  exact find?_map_pred_inv _ _
    (fun d => by by_cases h : (d.id == i) = true <;> simp [h, hf]) _

theorem findShop_update (db : DB) (i j : Nat) (f : Shop → Shop)
    (hf : ∀ s, s.id = i → (f s).id = i) :
    findShop (updateShopById db i f) j =
      Option.map (fun s => if s.id == i then f s else s) (findShop db j) := by
  unfold findShop updateShopById
  refine find?_map_pred_inv _ _ (fun s => ?_) _
  by_cases h : (s.id == i) = true
  · have hs : s.id = i := by simpa using h
    have : (f s).id = s.id := (hf s hs).trans hs.symm
    simp [h, this]
  · simp [h]

theorem sync_fst_shops (db : DB) (did : Nat) :
    (syncDistributorShopCounts db did).1.shops = db.shops := by
  unfold syncDistributorShopCounts
  cases findDistributor db did
  · rfl
  · dsimp only
    split <;> rfl

theorem sync_of_found (db : DB) (did : Nat) (d : Distributor)
    (h : findDistributor db did = some d) :
    syncDistributorShopCounts db did =
      if (syncTotals db did d).1 != d.retailShopCount ||
          (syncTotals db did d).2 != d.wholesaleShopCount then
        (updateDistributorById db did (fun x =>
          { x with retailShopCount := (syncTotals db did d).1,
                   wholesaleShopCount := (syncTotals db did d).2 }), true)
      else (db, false) := by
  unfold syncDistributorShopCounts
  rw [h]

theorem syncTotals_congr (db db' : DB) (did : Nat) (d d' : Distributor)
    (hs : db'.shops = db.shops) (hr : d'.retailShops = d.retailShops)
    (hw : d'.wholesaleShops = d.wholesaleShops) :
    syncTotals db' did d' = syncTotals db did d := by
  unfold syncTotals
  rw [hs, hr, hw]

theorem sync_findSelf (db : DB) (did : Nat) (d : Distributor)
    (h : findDistributor db did = some d) :
    findDistributor (syncDistributorShopCounts db did).1 did =
      some { d with retailShopCount := (syncTotals db did d).1,
                    wholesaleShopCount := (syncTotals db did d).2 } := by
  rw [sync_of_found db did d h]
  by_cases hw : ((syncTotals db did d).1 != d.retailShopCount ||
      (syncTotals db did d).2 != d.wholesaleShopCount) = true
  · rw [if_pos hw]
    dsimp only
    rw [findDistributor_update db did did (fun x =>
      { x with retailShopCount := (syncTotals db did d).1,
               wholesaleShopCount := (syncTotals db did d).2 }) (fun x => rfl),
      h, Option.map_some']
    have hid : (d.id == did) = true :=
      @List.find?_some Distributor (fun x => x.id == did) d db.distributors h
    simp [hid]
  · rw [if_neg hw]
    dsimp only
    simp only [Bool.or_eq_true, bne_iff_ne, ne_eq, not_or, not_not] at hw
    rw [h, hw.1, hw.2]

theorem sync_findOther (db : DB) (did j : Nat) (hne : j ≠ did) :
    findDistributor (syncDistributorShopCounts db did).1 j = findDistributor db j := by
  unfold syncDistributorShopCounts
  cases h : findDistributor db did with
  | none => rfl
  | some d =>
    dsimp only
    split
    · rw [findDistributor_update db did j (fun x =>
        { x with retailShopCount := (syncTotals db did d).1,
                 wholesaleShopCount := (syncTotals db did d).2 }) (fun x => rfl)]
      cases h2 : findDistributor db j with
      | none => rfl
      | some d2 =>
        rw [Option.map_some']
        have hj : d2.id = j :=
          by simpa using @List.find?_some Distributor (fun x => x.id == j) d2 db.distributors h2
        have hne2 : (d2.id == did) = false := by simp [hj, hne]
        simp [hne2]
    · rfl

theorem countsConsistent_sync (db : DB) (did : Nat) :
    countsConsistent (syncDistributorShopCounts db did).1 did := by
  intro d' hd'
  cases h : findDistributor db did with
  | none =>
    have e : syncDistributorShopCounts db did = (db, false) := by
      unfold syncDistributorShopCounts
      rw [h]
    rw [e] at hd'
    rw [h] at hd'
    cases hd'
  | some d =>
    rw [sync_findSelf db did d h] at hd'
    injection hd' with hd2
    subst hd2
    have hc : syncTotals (syncDistributorShopCounts db did).1 did
        { d with retailShopCount := (syncTotals db did d).1,
                 wholesaleShopCount := (syncTotals db did d).2 } =
        syncTotals db did d :=
      syncTotals_congr db (syncDistributorShopCounts db did).1 did d _
        (sync_fst_shops db did) rfl rfl
    rw [hc]
    exact ⟨rfl, rfl⟩

theorem sync_of_consistent (db : DB) (did : Nat) (h : countsConsistent db did) :
    syncDistributorShopCounts db did = (db, false) := by
  cases hf : findDistributor db did with
  | none =>
    unfold syncDistributorShopCounts
    rw [hf]
  | some d =>
    obtain ⟨h1, h2⟩ := h d hf
    rw [sync_of_found db did d hf]
    have hcond : ((syncTotals db did d).1 != d.retailShopCount ||
        (syncTotals db did d).2 != d.wholesaleShopCount) = false := by
      rw [← h1, ← h2]
      simp
    rw [hcond]
    simp

theorem countsConsistent_sync_other (db : DB) (did j : Nat) (hne : j ≠ did)
    (h : countsConsistent db j) :
    countsConsistent (syncDistributorShopCounts db did).1 j := by
  intro d' hd'
  rw [sync_findOther db did j hne] at hd'
  obtain ⟨h1, h2⟩ := h d' hd'
  have hc : syncTotals (syncDistributorShopCounts db did).1 j d' = syncTotals db j d' :=
    syncTotals_congr db (syncDistributorShopCounts db did).1 j d' d'
      (sync_fst_shops db did) rfl rfl
  rw [hc]
  exact ⟨h1, h2⟩

theorem filter_retail_comm (db : DB) (did : Nat) :
    db.shops.filter (fun s =>
        s.distributorId == did && s.type == ShopType.Retailer && s.isActive) =
      db.shops.filter (fun s =>
        s.isActive && s.type == ShopType.Retailer && s.distributorId == did) :=
  List.filter_congr (fun s _ => by
    cases s.distributorId == did <;> cases s.type == ShopType.Retailer <;>
      cases s.isActive <;> rfl)

theorem filter_wholesale_comm (db : DB) (did : Nat) :
    db.shops.filter (fun s =>
        s.distributorId == did && s.type == ShopType.WholeSeller && s.isActive) =
      db.shops.filter (fun s =>
        s.isActive && s.type == ShopType.WholeSeller && s.distributorId == did) :=
  List.filter_congr (fun s _ => by
    cases s.distributorId == did <;> cases s.type == ShopType.WholeSeller <;>
      cases s.isActive <;> rfl)

theorem filter_keys_retail (db : DB) (did : Nat) :
    (db.shops.filter (fun s => s.distributorId == did && s.isActive)).filter
        (fun s => s.type == ShopType.Retailer) =
      db.shops.filter (fun s =>
        s.isActive && s.type == ShopType.Retailer && s.distributorId == did) := by
  rw [List.filter_filter]
  exact List.filter_congr (fun s _ => by
    cases s.distributorId == did <;> cases s.type == ShopType.Retailer <;>
      cases s.isActive <;> rfl)

theorem filter_keys_wholesale (db : DB) (did : Nat) :
    (db.shops.filter (fun s => s.distributorId == did && s.isActive)).filter
        (fun s => !(s.type == ShopType.Retailer)) =
      db.shops.filter (fun s =>
        s.isActive && s.type == ShopType.WholeSeller && s.distributorId == did) := by
  rw [List.filter_filter]
  refine List.filter_congr (fun s _ => ?_)
  rcases s with ⟨i2, n, o, a, t, di, act, cb⟩
  cases t <;> cases di == did <;> cases act <;> rfl

theorem syncTotals_eq_spec (db : DB) (did : Nat) (d : Distributor) :
    syncTotals db did d = (specTotalRetail db did d, specTotalWholesale db did d) := by
  have hKR : (db.shops.filter (fun s => s.distributorId == did && s.isActive)).filter
      (fun s => s.type == ShopType.Retailer) =
      db.shops.filter (fun s =>
        s.distributorId == did && s.type == ShopType.Retailer && s.isActive) :=
    (filter_keys_retail db did).trans (filter_retail_comm db did).symm
  have hKW : (db.shops.filter (fun s => s.distributorId == did && s.isActive)).filter
      (fun s => !(s.type == ShopType.Retailer)) =
      db.shops.filter (fun s =>
        s.distributorId == did && s.type == ShopType.WholeSeller && s.isActive) :=
    (filter_keys_wholesale db did).trans (filter_wholesale_comm db did).symm
  simp only [syncTotals, specTotalRetail, specTotalWholesale, specRetailKeys,
    specWholesaleKeys]
  rw [List.countP_eq_length_filter, List.countP_eq_length_filter, hKR, hKW,
    ← filter_retail_comm, ← filter_wholesale_comm]

/-!
### Claim theorems
-/

/-- C2: for every existing distributor, syncCounts computes totalRetail as
the number of active Retailer Shop records plus the number of retail
legacy entries whose identity key is not present in the key set built
from those records, symmetrically for wholesale, and these totals are
what the distributor document carries after the call (the write being
skipped exactly when they already match). -/
theorem syncCounts_totals_spec (db : DB) (did : Nat) (d : Distributor)
    (h : findDistributor db did = some d) :
    findDistributor (syncDistributorShopCounts db did).1 did =
      some { d with retailShopCount := specTotalRetail db did d,
                    wholesaleShopCount := specTotalWholesale db did d } := by
  rw [sync_findSelf db did d h, syncTotals_eq_spec]

/-- Witness for syncCounts_totals_spec at the dedup fixture: one active
Retailer shop A/B/C and one identical legacy entry give a persisted
retail count of 1, not 2. -/
theorem syncCounts_totals_spec_w :
    findDistributor (syncDistributorShopCounts dbDedup 1).1 1 =
      some { distributorDedup with
               retailShopCount := specTotalRetail dbDedup 1 distributorDedup,
               wholesaleShopCount := specTotalWholesale dbDedup 1 distributorDedup } :=
  syncCounts_totals_spec dbDedup 1 distributorDedup rfl

/-- C3: syncCounts is idempotent: the second of two immediately repeated
calls performs no write; no write occurs whenever the computed totals
already equal the persisted counts; and the second call computes the same
totals as the first. -/
theorem syncCounts_idempotent (db : DB) (did : Nat) :
    (syncDistributorShopCounts (syncDistributorShopCounts db did).1 did =
        ((syncDistributorShopCounts db did).1, false)) ∧
    (∀ d, findDistributor db did = some d →
      (syncTotals db did d).1 = d.retailShopCount →
      (syncTotals db did d).2 = d.wholesaleShopCount →
      syncDistributorShopCounts db did = (db, false)) ∧
    (∀ d d1, findDistributor db did = some d →
      findDistributor (syncDistributorShopCounts db did).1 did = some d1 →
      syncTotals (syncDistributorShopCounts db did).1 did d1 = syncTotals db did d) := by
  refine ⟨sync_of_consistent _ _ (countsConsistent_sync db did), ?_, ?_⟩
  · intro d hf h1 h2
    refine sync_of_consistent db did (fun d' hd' => ?_)
    rw [hf] at hd'
    injection hd' with e
    subst e
    exact ⟨h1.symm, h2.symm⟩
  · intro d d1 hf h1
    rw [sync_findSelf db did d hf] at h1
    injection h1 with e
    subst e
    exact syncTotals_congr db _ did d _ (sync_fst_shops db did) rfl rfl

/-- Witness for syncCounts_idempotent: on the already-consistent dbDelete
state the call writes nothing, and on dbDedup a repeated call after the
first reconciliation writes nothing. -/
theorem syncCounts_idempotent_w :
    syncDistributorShopCounts dbDelete 1 = (dbDelete, false) ∧
    syncDistributorShopCounts (syncDistributorShopCounts dbDedup 1).1 1 =
      ((syncDistributorShopCounts dbDedup 1).1, false) :=
  ⟨(syncCounts_idempotent dbDelete 1).2.1
      { id := 1,
        retailShops := [{ id := 1, shopName := "S", ownerName := "O", address := "Ad" }],
        wholesaleShops := [], retailShopCount := 1, wholesaleShopCount := 0 }
      (by decide) (by decide) (by decide),
   (syncCounts_idempotent dbDedup 1).1⟩


theorem findDistributor_updateShopById (db : DB) (i : Nat) (f : Shop → Shop) (j : Nat) :
    findDistributor (updateShopById db i f) j = findDistributor db j := rfl

theorem isOk_error_false (e : ApiError) {α : Type}
    (h : (Except.error e : Except ApiError α).isOk = true) : False := by
  simp [Except.isOk, Except.toBool] at h

theorem addShop_result_synced (db : DB) (inp : AddShopInput)
    (h : (addShop db inp).1.isOk = true) :
    ∃ dbMid, (addShop db inp).2 =
      (syncDistributorShopCounts dbMid inp.distributorId).1 := by
  cases h1 : findDistributor db inp.distributorId with
  | none =>
    exact absurd h (by
      rw [show addShop db inp = (Except.error ApiError.NotFound, db) from by
        unfold addShop; rw [h1]]
      simp [Except.isOk, Except.toBool])
  | some dist =>
    cases h2 : db.shops.find? (fun s =>
        s.name == inp.name && s.distributorId == inp.distributorId && s.isActive) with
    | some s =>
      exact absurd h (by
        rw [show addShop db inp = (Except.error ApiError.Conflict, db) from by
          unfold addShop; rw [h1]; dsimp only; rw [h2]]
        simp [Except.isOk, Except.toBool])
    | none =>
      exact ⟨_, by
        show (addShop db inp).2 = _
        unfold addShop
        rw [h1]
        dsimp only
        rw [h2]⟩

theorem getShops_result_synced (db : DB) (did : Nat) (t : Option ShopType)
    (h : (getShopsByDistributor db did t).1.isOk = true) :
    (getShopsByDistributor db did t).2 = (syncDistributorShopCounts db did).1 := by
  cases h1 : findDistributor db did with
  | none =>
    exact absurd h (by
      rw [show getShopsByDistributor db did t = (Except.error ApiError.NotFound, db) from by
        unfold getShopsByDistributor; rw [h1]]
      simp [Except.isOk, Except.toBool])
  | some d =>
    unfold getShopsByDistributor
    rw [h1]

theorem deleteShop_result_synced (db : DB) (sid : Nat) (s0 : Shop)
    (hs : findShop db sid = some s0) :
    (findDistributor db s0.distributorId = none ∧
      (deleteShop db sid).2 =
        updateShopById db sid (fun s => { s with isActive := false })) ∨
    (∃ dbMid, (deleteShop db sid).2 =
      (syncDistributorShopCounts dbMid s0.distributorId).1) := by
  unfold deleteShop
  rw [hs]
  dsimp only
  cases h2 : findDistributor
      (updateShopById db sid (fun s => { s with isActive := false })) s0.distributorId with
  | none =>
    left
    exact ⟨h2, rfl⟩
  | some dist =>
    right
    exact ⟨_, rfl⟩

theorem updateShop_result_synced (db : DB) (sid : Nat) (inp : UpdateShopInput)
    (s0 : Shop) (dOrig : Distributor)
    (hs : findShop db sid = some s0)
    (hd : findDistributor db s0.distributorId = some dOrig)
    (hOk : (updateShop db sid inp).1.isOk = true) :
    ∃ dbMid,
      (inp.distributorId.getD s0.distributorId ≠ s0.distributorId ∧
        (updateShop db sid inp).2 =
          (syncDistributorShopCounts
            (syncDistributorShopCounts dbMid s0.distributorId).1
            (inp.distributorId.getD s0.distributorId)).1) ∨
      (inp.distributorId.getD s0.distributorId = s0.distributorId ∧
        (updateShop db sid inp).2 =
          (syncDistributorShopCounts dbMid s0.distributorId).1) := by
  by_cases hm : (match inp.distributorId with
    | none => false
    | some nd => nd != s0.distributorId && (findDistributor db nd).isNone) = true
  · exact absurd hOk (by
      rw [show updateShop db sid inp = (Except.error ApiError.NotFound, db) from by
        unfold updateShop; rw [hs]; dsimp only; rw [if_pos hm]]
      simp [Except.isOk, Except.toBool])
  · by_cases hnd : (inp.distributorId.getD s0.distributorId != s0.distributorId) = true
    · exact ⟨_, Or.inl ⟨by simpa using hnd, by
        show (updateShop db sid inp).2 = _
        unfold updateShop
        rw [hs]
        dsimp only
        rw [if_neg hm]
        rw [findDistributor_updateShopById, hd]
        dsimp only
        rw [if_pos hnd]⟩⟩
    · have hnd2 : inp.distributorId.getD s0.distributorId = s0.distributorId := by
        simpa using hnd
      exact ⟨_, Or.inr ⟨hnd2, by
        show (updateShop db sid inp).2 = _
        unfold updateShop
        rw [hs]
        dsimp only
        rw [if_neg hm]
        rw [findDistributor_updateShopById, hd]
        dsimp only
        rw [if_neg hnd]⟩⟩

/-- C1 (amended): after any of the four operations completes, every
distributor that the operation reconciles (the target distributor of
addShop and of the listing, the shop's distributor for deleteShop, and
for updateShop the original distributor — when it exists — together with
the new one) carries persisted counts equal to the totals recomputed from
the final state: the number of active Shop records of the type plus the
number of legacy entries of that type whose identity key is not among
those records' keys.  This equals the distinct-identity-key count of the
merged records only when no two merged records of a type share an
identity key. -/
theorem shop_ops_restore_counts (db : DB) :
    (∀ inp, (addShop db inp).1.isOk = true →
      countsConsistent (addShop db inp).2 inp.distributorId) ∧
    (∀ sid inp s0 dOrig, findShop db sid = some s0 →
      findDistributor db s0.distributorId = some dOrig →
      (updateShop db sid inp).1.isOk = true →
      countsConsistent (updateShop db sid inp).2 s0.distributorId ∧
      countsConsistent (updateShop db sid inp).2
        (inp.distributorId.getD s0.distributorId)) ∧
    (∀ sid s0, findShop db sid = some s0 → (deleteShop db sid).1.isOk = true →
      countsConsistent (deleteShop db sid).2 s0.distributorId) ∧
    (∀ did t, (getShopsByDistributor db did t).1.isOk = true →
      countsConsistent (getShopsByDistributor db did t).2 did) := by
  refine ⟨?_, ?_, ?_, ?_⟩
  · intro inp h
    obtain ⟨dbMid, e⟩ := addShop_result_synced db inp h
    rw [e]
    exact countsConsistent_sync dbMid inp.distributorId
  · intro sid inp s0 dOrig hs hd hOk
    obtain ⟨dbMid, hcase⟩ := updateShop_result_synced db sid inp s0 dOrig hs hd hOk
    rcases hcase with ⟨hne, e⟩ | ⟨heq, e⟩
    · constructor
      · rw [e]
        exact countsConsistent_sync_other _ _ _ (Ne.symm hne)
          (countsConsistent_sync dbMid s0.distributorId)
      · rw [e]
        exact countsConsistent_sync _ _
    · have hcons : countsConsistent (updateShop db sid inp).2 s0.distributorId := by
        rw [e]
        exact countsConsistent_sync dbMid s0.distributorId
      exact ⟨hcons, by rw [heq]; exact hcons⟩
  · intro sid s0 hs hOk
    rcases deleteShop_result_synced db sid s0 hs with ⟨hnone, e⟩ | ⟨dbMid, e⟩
    · rw [e]
      intro d hd2
      rw [findDistributor_updateShopById, hnone] at hd2
      cases hd2
    · rw [e]
      exact countsConsistent_sync dbMid s0.distributorId
  · intro did t h
    rw [getShops_result_synced db did t h]
    exact countsConsistent_sync db did

/-- C1 counterexample: with two retail legacy entries that differ only in
letter case (one identity key, two entries) and no Shop records, the
listing operation ends with a Reconciler call that persists
retailShopCount 2, while the number of distinct identity keys of the
merged active-Retailer/retail-legacy records is 1. -/
theorem listing_counts_neq_distinct_keys :
    (findDistributor (getShopsByDistributor dbDupKeys 1 none).2 1).map
        Distributor.retailShopCount = some 2 ∧
    (findDistributor (getShopsByDistributor dbDupKeys 1 none).2 1).map
        (fun d => mergedDistinctKeyCount (getShopsByDistributor dbDupKeys 1 none).2 d
          ShopType.Retailer) = some 1 := by
  decide

/-- Witness for shop_ops_restore_counts: the listing operation on
dbDupKeys leaves distributor 1 with counts consistent with the recomputed
totals. -/
theorem shop_ops_restore_counts_w :
    countsConsistent (getShopsByDistributor dbDupKeys 1 none).2 1 :=
  (shop_ops_restore_counts dbDupKeys).2.2.2 1 none (by decide)

theorem findDistributor_isSome_update (db : DB) (i : Nat) (f : Distributor → Distributor)
    (j : Nat) (hf : ∀ d, (f d).id = d.id) :
    (findDistributor (updateDistributorById db i f) j).isSome =
      (findDistributor db j).isSome := by
  rw [findDistributor_update db i j f hf]
  cases findDistributor db j <;> rfl

theorem findDistributor_isSome_pushLegacy (db : DB) (did : Nat) (t : ShopType)
    (e : LegacyEntry) (j : Nat) :
    (findDistributor (pushLegacy db did t e) j).isSome =
      (findDistributor db j).isSome :=
  findDistributor_isSome_update db did _ j
    (fun d => by cases t == ShopType.Retailer <;> rfl)

theorem findDistributor_isSome_sync (db : DB) (did j : Nat) :
    (findDistributor (syncDistributorShopCounts db did).1 j).isSome =
      (findDistributor db j).isSome := by
  unfold syncDistributorShopCounts
  cases findDistributor db did with
  | none => rfl
  | some d =>
    dsimp only
    split
    · exact findDistributor_isSome_update db did _ j (fun x => rfl)
    · rfl

theorem addShop_shops_of_ok (db : DB) (inp : AddShopInput)
    (h : (addShop db inp).1.isOk = true) :
    (addShop db inp).2.shops = db.shops ++ [createdShop db inp] ∧
    (findDistributor (addShop db inp).2 inp.distributorId).isSome = true := by
  cases h1 : findDistributor db inp.distributorId with
  | none =>
    exact absurd h (by
      rw [show addShop db inp = (Except.error ApiError.NotFound, db) from by
        unfold addShop; rw [h1]]
      simp [Except.isOk, Except.toBool])
  | some dist =>
    cases h2 : db.shops.find? (fun s =>
        s.name == inp.name && s.distributorId == inp.distributorId && s.isActive) with
    | some s =>
      exact absurd h (by
        rw [show addShop db inp = (Except.error ApiError.Conflict, db) from by
          unfold addShop; rw [h1]; (try dsimp only); rw [h2]]
        simp [Except.isOk, Except.toBool])
    | none =>
      have e2 : (addShop db inp).2 = (syncDistributorShopCounts
          (if !((dist.arrayFor inp.type).any (fun s =>
              s.shopName == inp.name && s.ownerName == inp.ownerName &&
                s.address == inp.address)) then
            pushLegacy { db with shops := db.shops ++ [createdShop db inp],
                                 nextShopId := db.nextShopId + 1,
                                 nextLegacyId := db.nextLegacyId + 1 }
              inp.distributorId inp.type
              { id := db.nextLegacyId, shopName := inp.name,
                ownerName := inp.ownerName, address := inp.address }
          else { db with shops := db.shops ++ [createdShop db inp],
                         nextShopId := db.nextShopId + 1 })
          inp.distributorId).1 := by
        show (addShop db inp).2 = _
        unfold addShop
        rw [h1]
        (try dsimp only)
        rw [h2]
        exact rfl
      constructor
      · rw [e2, sync_fst_shops]
        split <;> rfl
      · rw [e2, findDistributor_isSome_sync]
        split
        · rw [findDistributor_isSome_pushLegacy]
          show (findDistributor db inp.distributorId).isSome = true
          rw [h1]
          rfl
        · show (findDistributor db inp.distributorId).isSome = true
          rw [h1]
          rfl

/-- C5: when addShop succeeds from a state with no active shop of that
name for the distributor, an immediately repeated call with the same
input fails with Conflict, performs no write (the state is returned
unchanged), and exactly one active Shop record with that name for that
distributor exists. -/
theorem addShop_second_conflicts (db : DB) (inp : AddShopInput)
    (h1 : (addShop db inp).1.isOk = true)
    (h0 : (db.shops.filter (fun s =>
      s.name == inp.name && s.distributorId == inp.distributorId &&
        s.isActive)).length = 0) :
    addShop (addShop db inp).2 inp =
      (Except.error ApiError.Conflict, (addShop db inp).2) ∧
    ((addShop db inp).2.shops.filter (fun s =>
      s.name == inp.name && s.distributorId == inp.distributorId &&
        s.isActive)).length = 1 := by
  obtain ⟨hshops, hsome⟩ := addShop_shops_of_ok db inp h1
  have hp : (fun s => s.name == inp.name && s.distributorId == inp.distributorId &&
      s.isActive) (createdShop db inp) = true := by
    simp [createdShop]
  have hnil : db.shops.filter (fun s =>
      s.name == inp.name && s.distributorId == inp.distributorId && s.isActive) = [] :=
    List.length_eq_zero.mp h0
  have hfind : (addShop db inp).2.shops.find? (fun s =>
      s.name == inp.name && s.distributorId == inp.distributorId && s.isActive) =
      some (createdShop db inp) := by
    rw [hshops, List.find?_append]
    have hnone : db.shops.find? (fun s =>
        s.name == inp.name && s.distributorId == inp.distributorId && s.isActive) =
        none := by
      rw [List.find?_eq_none]
      intro x hx
      have hall := List.filter_eq_nil_iff.mp hnil
      exact hall x hx
    rw [hnone]
    simp [List.find?, hp]
  obtain ⟨d2, hd2⟩ := Option.isSome_iff_exists.mp hsome
  refine ⟨?_, ?_⟩
  · revert hd2 hfind
    generalize (addShop db inp).2 = R
    intro hd2 hfind
    unfold addShop
    rw [hd2]
    (try dsimp only)
    rw [hfind]
  · rw [hshops, List.filter_append, hnil]
    simp [List.filter, hp]

/-- Witness for addShop_second_conflicts on the single-distributor state:
the repeated identical addShop is rejected with Conflict and one active
record remains. -/
theorem addShop_second_conflicts_w :
    addShop (addShop dbOneDistributor inpNandu).2 inpNandu =
      (Except.error ApiError.Conflict, (addShop dbOneDistributor inpNandu).2) ∧
    ((addShop dbOneDistributor inpNandu).2.shops.filter (fun s =>
      s.name == inpNandu.name && s.distributorId == inpNandu.distributorId &&
        s.isActive)).length = 1 :=
  addShop_second_conflicts dbOneDistributor inpNandu (by decide) (by decide)

/-- C6 counterexample: the stored legacy entry a/b/c has the same identity
key as the added shop A/B/C, yet addShop appends a second mirror entry,
because its mirror duplicate check compares shopName/ownerName/address
exactly (case-sensitively) rather than by the lowercased identity key. -/
theorem addShop_mirror_appends_despite_key_match :
    deriveKey "A" "B" "C" = deriveKey "a" "b" "c" ∧
    (findDistributor (addShop dbCaseLegacy inpCaseLegacy).2 1).map
        (fun d => d.retailShops.length) = some 2 := by
  decide

/-- C6 (amended): when addShop succeeds, it appends the mirror entry
{shopName, ownerName, address} to the legacy array selected by the new
shop's type if and only if no existing entry of that array has exactly
the same shopName, ownerName and address — the comparison is exact and
case-sensitive, so an entry differing only in letter case does not
prevent the append. -/
theorem addShop_mirror_exact_match (db : DB) (inp : AddShopInput) (dist : Distributor)
    (hd : findDistributor db inp.distributorId = some dist)
    (h : (addShop db inp).1.isOk = true) :
    (findDistributor (addShop db inp).2 inp.distributorId).map
        (fun d => d.arrayFor inp.type) =
      some (if (dist.arrayFor inp.type).any (fun s =>
          s.shopName == inp.name && s.ownerName == inp.ownerName &&
            s.address == inp.address) then
        dist.arrayFor inp.type
      else dist.arrayFor inp.type ++
        [{ id := db.nextLegacyId, shopName := inp.name,
           ownerName := inp.ownerName, address := inp.address }]) := by
  cases h2 : db.shops.find? (fun s =>
      s.name == inp.name && s.distributorId == inp.distributorId && s.isActive) with
  | some s =>
    exact absurd h (by
      rw [show addShop db inp = (Except.error ApiError.Conflict, db) from by
        unfold addShop; rw [hd]; (try dsimp only); rw [h2]]
      simp [Except.isOk, Except.toBool])
  | none =>
    have e2 : (addShop db inp).2 = (syncDistributorShopCounts
        (if !((dist.arrayFor inp.type).any (fun s =>
            s.shopName == inp.name && s.ownerName == inp.ownerName &&
              s.address == inp.address)) then
          pushLegacy { db with shops := db.shops ++ [createdShop db inp],
                               nextShopId := db.nextShopId + 1,
                               nextLegacyId := db.nextLegacyId + 1 }
            inp.distributorId inp.type
            { id := db.nextLegacyId, shopName := inp.name,
              ownerName := inp.ownerName, address := inp.address }
        else { db with shops := db.shops ++ [createdShop db inp],
                       nextShopId := db.nextShopId + 1 })
        inp.distributorId).1 := by
      show (addShop db inp).2 = _
      unfold addShop
      rw [hd]
      (try dsimp only)
      rw [h2]
      exact rfl
    rw [e2]
    by_cases hex : ((dist.arrayFor inp.type).any (fun s =>
        s.shopName == inp.name && s.ownerName == inp.ownerName &&
          s.address == inp.address)) = true
    · have hcond : (!((dist.arrayFor inp.type).any (fun s =>
          s.shopName == inp.name && s.ownerName == inp.ownerName &&
            s.address == inp.address))) = false := by rw [hex]; rfl
      rw [hcond, if_neg Bool.false_ne_true, if_pos hex]
      have hsync := sync_findSelf
          { db with shops := db.shops ++ [createdShop db inp],
                    nextShopId := db.nextShopId + 1 }
          inp.distributorId dist hd
      rw [hsync]
      rfl
    · have hex2 : ((dist.arrayFor inp.type).any (fun s =>
          s.shopName == inp.name && s.ownerName == inp.ownerName &&
            s.address == inp.address)) = false := by
        revert hex
        cases (dist.arrayFor inp.type).any (fun s =>
          s.shopName == inp.name && s.ownerName == inp.ownerName &&
            s.address == inp.address) <;> simp
      have hcond : (!((dist.arrayFor inp.type).any (fun s =>
          s.shopName == inp.name && s.ownerName == inp.ownerName &&
            s.address == inp.address))) = true := by rw [hex2]; rfl
      rw [hcond, if_pos rfl, if_neg (by rw [hex2]; exact Bool.false_ne_true)]
      have hid : (dist.id == inp.distributorId) = true :=
        @List.find?_some Distributor (fun x => x.id == inp.distributorId) dist
          db.distributors hd
      have hdx : findDistributor
          { db with shops := db.shops ++ [createdShop db inp],
                    nextShopId := db.nextShopId + 1,
                    nextLegacyId := db.nextLegacyId + 1 }
          inp.distributorId = some dist := hd
      have hpd : findDistributor
          (pushLegacy
            { db with shops := db.shops ++ [createdShop db inp],
                      nextShopId := db.nextShopId + 1,
                      nextLegacyId := db.nextLegacyId + 1 }
            inp.distributorId inp.type
            { id := db.nextLegacyId, shopName := inp.name,
              ownerName := inp.ownerName, address := inp.address })
          inp.distributorId =
          some (if inp.type == ShopType.Retailer then
            { dist with retailShops := dist.retailShops ++
                [{ id := db.nextLegacyId, shopName := inp.name,
                   ownerName := inp.ownerName, address := inp.address }] }
          else
            { dist with wholesaleShops := dist.wholesaleShops ++
                [{ id := db.nextLegacyId, shopName := inp.name,
                   ownerName := inp.ownerName, address := inp.address }] }) := by
        unfold pushLegacy
        rw [findDistributor_update _ _ _ _
          (fun d => by cases inp.type == ShopType.Retailer <;> rfl)]
        rw [hdx, Option.map_some']
        simp only [hid, if_true]
      have hsync := sync_findSelf
          (pushLegacy
            { db with shops := db.shops ++ [createdShop db inp],
                      nextShopId := db.nextShopId + 1,
                      nextLegacyId := db.nextLegacyId + 1 }
            inp.distributorId inp.type
            { id := db.nextLegacyId, shopName := inp.name,
              ownerName := inp.ownerName, address := inp.address })
          inp.distributorId _ hpd
      rw [hsync]
      cases ht : inp.type
      · rfl
      · rfl

/-- Witness for addShop_mirror_exact_match: the case-variant legacy entry
does not block the append, so the array gains a second entry. -/
theorem addShop_mirror_exact_match_w :
    (findDistributor (addShop dbCaseLegacy inpCaseLegacy).2
        inpCaseLegacy.distributorId).map
        (fun d => d.arrayFor inpCaseLegacy.type) =
      some (if (distributorCaseLegacy.arrayFor inpCaseLegacy.type).any (fun s =>
          s.shopName == inpCaseLegacy.name && s.ownerName == inpCaseLegacy.ownerName &&
            s.address == inpCaseLegacy.address) then
        distributorCaseLegacy.arrayFor inpCaseLegacy.type
      else distributorCaseLegacy.arrayFor inpCaseLegacy.type ++
        [{ id := dbCaseLegacy.nextLegacyId, shopName := inpCaseLegacy.name,
           ownerName := inpCaseLegacy.ownerName, address := inpCaseLegacy.address }]) :=
  addShop_mirror_exact_match dbCaseLegacy inpCaseLegacy distributorCaseLegacy rfl
    (by decide)

/-- C4 (code bug): updateShop renames shop A/B/C to D while moving it from
distributor 1 to distributor 2.  Because the controller rebinds its shop
variable to the updated document (new true) before building the pull
query, the removal matches the post-update values D/B/C, so the
pre-update legacy entry A/B/C survives in distributor 1's retail array
and the following sync leaves distributor 1 with a phantom
retailShopCount of 1 instead of 0; distributor 2 receives the new
entry. -/
theorem updateShop_stale_legacy_after_transfer :
    (findDistributor (updateShop dbTransfer 10 inpTransfer).2 1).map
        Distributor.retailShops =
      some [{ id := 1, shopName := "A", ownerName := "B", address := "C" }] ∧
    (findDistributor (updateShop dbTransfer 10 inpTransfer).2 1).map
        Distributor.retailShopCount = some 1 ∧
    (findDistributor (updateShop dbTransfer 10 inpTransfer).2 2).map
        Distributor.retailShops =
      some [{ id := 5, shopName := "D", ownerName := "B", address := "C" }] := by
  decide

/-- C7 counterexample: when the legacy-mirror write throws after the Shop
record has been created, the controller's catch block forwards the error
(next(error)), so the operation is reported as failed to the caller even
though the committed Shop record remains. -/
theorem addShop_mirror_failure_reported :
    (addShopF dbOneDistributor inpNandu false true).1 =
      Except.error ApiError.ServerError ∧
    (findShop (addShopF dbOneDistributor inpNandu false true).2 100).isSome = true :=
  ⟨rfl, by decide⟩

theorem insertSorted_perm {α : Type} (le : α → α → Bool) (a : α) (l : List α) :
    (insertSorted le a l).Perm (a :: l) := by
  induction l with
  | nil => exact List.Perm.refl _
  | cons b l ih =>
    unfold insertSorted
    split
    · exact List.Perm.refl _
    · exact (List.Perm.cons b ih).trans (List.Perm.swap a b l)

theorem sortByLe_perm {α : Type} (le : α → α → Bool) (l : List α) :
    (sortByLe le l).Perm l := by
  induction l with
  | nil => exact List.Perm.refl _
  | cons a l ih =>
    exact (insertSorted_perm le a (sortByLe le l)).trans (List.Perm.cons a ih)

theorem mem_sortByLe {α : Type} (le : α → α → Bool) (l : List α) (a : α) :
    a ∈ sortByLe le l ↔ a ∈ l :=
  (sortByLe_perm le l).mem_iff

theorem pairwise_insertSorted {α : Type} (le : α → α → Bool)
    (htot : ∀ a b, (le a b || le b a) = true)
    (htrans : ∀ a b c, le a b = true → le b c = true → le a c = true)
    (a : α) (l : List α) (hl : l.Pairwise (fun x y => le x y = true)) :
    (insertSorted le a l).Pairwise (fun x y => le x y = true) := by
  induction l with
  | nil => simp [insertSorted]
  | cons b l ih =>
    rcases List.pairwise_cons.mp hl with ⟨hb, hl2⟩
    unfold insertSorted
    cases hab : le a b with
    | true =>
      rw [if_pos rfl]
      refine List.Pairwise.cons ?_ hl
      intro c hc
      rcases List.mem_cons.mp hc with rfl | hcl
      · exact hab
      · exact htrans a b c hab (hb c hcl)
    | false =>
      rw [if_neg Bool.false_ne_true]
      refine List.Pairwise.cons ?_ (ih hl2)
      intro c hc
      rcases List.mem_cons.mp ((insertSorted_perm le a l).mem_iff.mp hc) with rfl | hcl
      · have hba := htot c b
        rw [hab] at hba
        simpa using hba
      · exact hb c hcl

theorem pairwise_sortByLe {α : Type} (le : α → α → Bool)
    (htot : ∀ a b, (le a b || le b a) = true)
    (htrans : ∀ a b c, le a b = true → le b c = true → le a c = true)
    (l : List α) :
    (sortByLe le l).Pairwise (fun x y => le x y = true) := by
  induction l with
  | nil => exact List.Pairwise.nil
  | cons a l ih =>
    exact pairwise_insertSorted le htot htrans a (sortByLe le l) ih

theorem getShops_views_mem (db : DB) (did : Nat) (t : Option ShopType)
    (views : List ShopView) (v : ShopView)
    (h : (getShopsByDistributor db did t).1 = Except.ok views) (hv : v ∈ views) :
    (∃ s, (s ∈ db.shops ∧ shopMatchesQuery s did t = true) ∧
      v = Shop.toView s) ∨
    (v.isLegacy = true ∧ v.isActive = true ∧
      ¬ ∃ s, (s ∈ db.shops ∧ shopMatchesQuery s did t = true) ∧
        Shop.key s = deriveKey v.name v.ownerName v.address) := by
  cases h1 : findDistributor db did with
  | none =>
    unfold getShopsByDistributor at h
    rw [h1] at h
    cases h
  | some dist =>
    unfold getShopsByDistributor at h
    rw [h1] at h
    (try dsimp only at h)
    injection h with h
    subst h
    rw [mem_sortByLe] at hv
    rcases List.mem_append.mp hv with hv2 | hwhole
    · rcases List.mem_append.mp hv2 with hbase | hretail
      · obtain ⟨s, hsmem, rfl⟩ := List.mem_map.mp hbase
        rw [mem_sortByLe, List.mem_filter] at hsmem
        exact Or.inl ⟨s, ⟨hsmem.1, hsmem.2⟩, rfl⟩
      · cases hb : (t == none || t == some ShopType.Retailer) with
        | false =>
          rw [hb] at hretail
          simp at hretail
        | true =>
          rw [hb, if_pos rfl] at hretail
          obtain ⟨e, hemem, hfe⟩ := List.mem_filterMap.mp hretail
          cases hcont : ((sortByLe (fun a b => nameLe a.name b.name)
              (db.shops.filter (fun s => shopMatchesQuery s did t))).map
              Shop.key).contains e.key with
          | true =>
            rw [hcont] at hfe
            simp at hfe
          | false =>
            rw [hcont, if_neg Bool.false_ne_true] at hfe
            injection hfe with hfe
            subst hfe
            refine Or.inr ⟨rfl, rfl, ?_⟩
            rintro ⟨s, ⟨hsmem, hspred⟩, hkey⟩
            have hmem2 : e.key ∈ (sortByLe (fun a b => nameLe a.name b.name)
                (db.shops.filter (fun s => shopMatchesQuery s did t))).map
                Shop.key := by
              refine List.mem_map.mpr ⟨s, ?_, hkey⟩
              rw [mem_sortByLe, List.mem_filter]
              exact ⟨hsmem, hspred⟩
            have hc2 : ((sortByLe (fun a b => nameLe a.name b.name)
                (db.shops.filter (fun s => shopMatchesQuery s did t))).map
                Shop.key).contains e.key = true :=
              List.elem_iff.mpr hmem2
            rw [hcont] at hc2
            exact Bool.false_ne_true hc2
    · cases hb : (t == none || t == some ShopType.WholeSeller) with
      | false =>
        rw [hb] at hwhole
        simp at hwhole
      | true =>
        rw [hb, if_pos rfl] at hwhole
        obtain ⟨e, hemem, hfe⟩ := List.mem_filterMap.mp hwhole
        cases hcont : ((sortByLe (fun a b => nameLe a.name b.name)
            (db.shops.filter (fun s => shopMatchesQuery s did t))).map
            Shop.key).contains e.key with
        | true =>
          rw [hcont] at hfe
          simp at hfe
        | false =>
          rw [hcont, if_neg Bool.false_ne_true] at hfe
          injection hfe with hfe
          subst hfe
          refine Or.inr ⟨rfl, rfl, ?_⟩
          rintro ⟨s, ⟨hsmem, hspred⟩, hkey⟩
          have hmem2 : e.key ∈ (sortByLe (fun a b => nameLe a.name b.name)
              (db.shops.filter (fun s => shopMatchesQuery s did t))).map
              Shop.key := by
            refine List.mem_map.mpr ⟨s, ?_, hkey⟩
            rw [mem_sortByLe, List.mem_filter]
            exact ⟨hsmem, hspred⟩
          have hc2 : ((sortByLe (fun a b => nameLe a.name b.name)
              (db.shops.filter (fun s => shopMatchesQuery s did t))).map
              Shop.key).contains e.key = true :=
            List.elem_iff.mpr hmem2
          rw [hcont] at hc2
          exact Bool.false_ne_true hc2

/-- C10: with no type filter, the listing deduplicates by identity key
alone, without regard to type: every legacy view in the output has an
identity key different from that of every active shop of the distributor
of either type — unlike syncCounts, which deduplicates per type.
Concretely, a retail legacy entry whose key matches an active Whole
Seller shop is omitted from the listing, whose length 1 then differs from
retailShopCount + wholesaleShopCount = 2 persisted by the same call. -/
theorem listing_dedup_ignores_type :
    (∀ db did views v, (getShopsByDistributor db did none).1 = Except.ok views →
      v ∈ views → v.isLegacy = true →
      ∀ s, s ∈ db.shops → s.distributorId = did → s.isActive = true →
        Shop.key s ≠ deriveKey v.name v.ownerName v.address) ∧
    ((getShopsByDistributor dbCrossType 1 none).1 =
      Except.ok [{ id := 20, name := "a", ownerName := "b", address := "c",
                   type := ShopType.WholeSeller, distributorId := 1,
                   isLegacy := false, isActive := true }] ∧
     (findDistributor (getShopsByDistributor dbCrossType 1 none).2 1).map
        (fun d => d.retailShopCount + d.wholesaleShopCount) = some 2) := by
  refine ⟨?_, rfl, by decide⟩
  intro db did views v h hv hleg s hs hdid hact hkey
  rcases getShops_views_mem db did none views v h hv with ⟨s2, _, rfl⟩ | ⟨_, _, hno⟩
  · simp [Shop.toView] at hleg
  · exact hno ⟨s, ⟨hs, by simp [shopMatchesQuery, hdid, hact]⟩, hkey⟩

/-- Witness for listing_dedup_ignores_type: in the dbMixed listing the
legacy view p/q/r keeps an identity key distinct from the active shop
x/y/z. -/
theorem listing_dedup_ignores_type_w :
    Shop.key { id := 7, name := "x", ownerName := "y", address := "z",
               type := ShopType.Retailer, distributorId := 1, isActive := true,
               createdBy := 0 } ≠ deriveKey "p" "q" "r" :=
  listing_dedup_ignores_type.1 dbMixed 1
    [{ id := 1, name := "p", ownerName := "q", address := "r",
       type := ShopType.Retailer, distributorId := 1,
       isLegacy := true, isActive := true },
     { id := 7, name := "x", ownerName := "y", address := "z",
       type := ShopType.Retailer, distributorId := 1,
       isLegacy := false, isActive := true }]
    { id := 1, name := "p", ownerName := "q", address := "r",
      type := ShopType.Retailer, distributorId := 1,
      isLegacy := true, isActive := true }
    rfl (by decide) rfl
    { id := 7, name := "x", ownerName := "y", address := "z",
      type := ShopType.Retailer, distributorId := 1, isActive := true,
      createdBy := 0 }
    (by decide) rfl rfl

theorem strLe_trans : ∀ as bs cs : List Char, strLe as bs = true →
    strLe bs cs = true → strLe as cs = true := by
  intro as
  induction as with
  | nil => intro bs cs h1 h2; rfl
  | cons a as ih =>
    intro bs cs h1 h2
    cases bs with
    | nil => cases h1
    | cons b bs =>
      cases cs with
      | nil => cases h2
      | cons c cs =>
        unfold strLe at h1 h2 ⊢
        by_cases hab : a.toNat < b.toNat
        · rw [if_pos hab] at h1
          by_cases hbc : b.toNat < c.toNat
          · rw [if_pos (by omega)]
          · rw [if_neg hbc] at h2
            by_cases hbc2 : b.toNat = c.toNat
            · rw [if_pos (by omega)]
            · rw [if_neg hbc2] at h2
              cases h2
        · rw [if_neg hab] at h1
          by_cases hab2 : a.toNat = b.toNat
          · rw [if_pos hab2] at h1
            by_cases hbc : b.toNat < c.toNat
            · rw [if_pos hbc] at h2
              rw [if_pos (by omega)]
            · rw [if_neg hbc] at h2
              by_cases hbc2 : b.toNat = c.toNat
              · rw [if_pos hbc2] at h2
                rw [if_neg (by omega), if_pos (by omega)]
                exact ih bs cs h1 h2
              · rw [if_neg hbc2] at h2
                cases h2
          · rw [if_neg hab2] at h1
            cases h1

theorem strLe_total : ∀ as bs : List Char, (strLe as bs || strLe bs as) = true := by
  intro as
  induction as with
  | nil => intro bs; rfl
  | cons a as ih =>
    intro bs
    cases bs with
    | nil => rfl
    | cons b bs =>
      unfold strLe
      by_cases hab : a.toNat < b.toNat
      · rw [if_pos hab]
        rfl
      · by_cases heq : a.toNat = b.toNat
        · rw [if_neg hab, if_pos heq, if_neg (by omega), if_pos heq.symm]
          exact ih bs
        · rw [if_neg hab, if_neg heq, if_pos (by omega)]
          simp

theorem contains_eq_of_perm {α : Type} [BEq α] [LawfulBEq α] {l1 l2 : List α}
    (h : l1.Perm l2) (a : α) : l1.contains a = l2.contains a := by
  cases hc : l2.contains a with
  | true =>
    exact List.elem_iff.mpr (h.mem_iff.mpr (List.elem_iff.mp hc))
  | false =>
    cases hc1 : l1.contains a with
    | false => rfl
    | true =>
      have h2 : l2.contains a = true :=
        List.elem_iff.mpr (h.mem_iff.mp (List.elem_iff.mp hc1))
      rw [hc] at h2
      cases h2

theorem filterMap_guard {α β : Type} (p : α → Bool) (g : α → β) (l : List α) :
    l.filterMap (fun a => if p a then none else some (g a)) =
      (l.filter (fun a => !(p a))).map g := by
  induction l with
  | nil => rfl
  | cons a l ih =>
    cases hp : p a with
    | true => simp [List.filterMap_cons, List.filter_cons, hp, ih]
    | false => simp [List.filterMap_cons, List.filter_cons, hp, ih]

/-- C9: getShopsByDistributor fails with NotFound when the distributor is
absent; otherwise it answers with the active Shop records (filtered by
type when supplied) merged with the legacy entries whose identity key
matches no returned record, the latter mapped to the view shape with
isLegacy true, the whole list sorted by name ascending, and the database
after the call is the one produced by the Reconciler pass for the
distributor. -/
theorem getShops_spec (db : DB) (did : Nat) (t : Option ShopType) :
    (findDistributor db did = none →
      getShopsByDistributor db did t = (Except.error ApiError.NotFound, db)) ∧
    (∀ d, findDistributor db did = some d →
      ∃ views, (getShopsByDistributor db did t).1 = Except.ok views ∧
        views.Perm (specViewsFor db did t d) ∧
        views.Pairwise (fun a b => nameLe a.name b.name = true) ∧
        (getShopsByDistributor db did t).2 =
          (syncDistributorShopCounts db did).1) := by
  constructor
  · intro h
    unfold getShopsByDistributor
    rw [h]
  · intro d hd
    have hfilt : db.shops.filter (fun s => shopMatchesQuery s did t) =
        db.shops.filter (fun s => specShopMatches s did t) := by
      refine List.filter_congr (fun s _ => ?_)
      unfold shopMatchesQuery specShopMatches
      cases t with
      | none => cases (s.distributorId == did) <;> cases s.isActive <;> rfl
      | some tt =>
        cases (s.distributorId == did) <;> cases s.isActive <;>
          cases (s.type == tt) <;> rfl
    have hkeysPerm : ((sortByLe (fun a b => nameLe a.name b.name)
        (db.shops.filter (fun s => shopMatchesQuery s did t))).map Shop.key).Perm
        ((db.shops.filter (fun s => specShopMatches s did t)).map Shop.key) :=
      (List.Perm.map Shop.key (sortByLe_perm _ _)).trans
        (hfilt ▸ List.Perm.refl _)
    have hcont : ∀ k, ((sortByLe (fun a b => nameLe a.name b.name)
        (db.shops.filter (fun s => shopMatchesQuery s did t))).map
          Shop.key).contains k =
        ((db.shops.filter (fun s => specShopMatches s did t)).map
          Shop.key).contains k :=
      fun k => contains_eq_of_perm hkeysPerm k
    have hbase : ((sortByLe (fun a b => nameLe a.name b.name)
        (db.shops.filter (fun s => shopMatchesQuery s did t))).map Shop.toView).Perm
        ((db.shops.filter (fun s => specShopMatches s did t)).map Shop.toView) :=
      (List.Perm.map Shop.toView (sortByLe_perm _ _)).trans
        (hfilt ▸ List.Perm.refl _)
    refine ⟨_, by
      show (getShopsByDistributor db did t).1 = _
      unfold getShopsByDistributor
      rw [hd], ?_, ?_, ?_⟩
    · show (sortByLe viewNameLe _).Perm (specViewsFor db did t d)
      refine (sortByLe_perm viewNameLe _).trans ?_
      simp only [specViewsFor]
      refine List.Perm.append (List.Perm.append hbase ?_) ?_
      · by_cases hp : t = none ∨ t = some ShopType.Retailer
        · have hb : (t == none || t == some ShopType.Retailer) = true := by
            rcases hp with rfl | rfl <;> rfl
          rw [hb, if_pos rfl, if_pos hp]
          rw [filterMap_guard]
          rw [List.filter_congr (fun e _ => by rw [hcont e.key])]
          exact List.Perm.refl _
        · have hb : (t == none || t == some ShopType.Retailer) = false := by
            cases t with
            | none => exact absurd (Or.inl rfl) hp
            | some tt =>
              cases tt with
              | Retailer => exact absurd (Or.inr rfl) hp
              | WholeSeller => rfl
          rw [hb, if_neg Bool.false_ne_true, if_neg hp]
      · by_cases hp : t = none ∨ t = some ShopType.WholeSeller
        · have hb : (t == none || t == some ShopType.WholeSeller) = true := by
            rcases hp with rfl | rfl <;> rfl
          rw [hb, if_pos rfl, if_pos hp]
          rw [filterMap_guard]
          rw [List.filter_congr (fun e _ => by rw [hcont e.key])]
          exact List.Perm.refl _
        · have hb : (t == none || t == some ShopType.WholeSeller) = false := by
            cases t with
            | none => exact absurd (Or.inl rfl) hp
            | some tt =>
              cases tt with
              | Retailer => rfl
              | WholeSeller => exact absurd (Or.inr rfl) hp
          rw [hb, if_neg Bool.false_ne_true, if_neg hp]
    · exact pairwise_sortByLe viewNameLe
        (fun a b => strLe_total a.name.data b.name.data)
        (fun a b c h1 h2 => strLe_trans a.name.data b.name.data c.name.data h1 h2) _
    · show (getShopsByDistributor db did t).2 = _
      unfold getShopsByDistributor
      rw [hd]

/-- Witness for getShops_spec at the dedup fixture. -/
theorem getShops_spec_w :
    ∃ views, (getShopsByDistributor dbDedup 1 none).1 = Except.ok views ∧
      views.Perm (specViewsFor dbDedup 1 none distributorDedup) ∧
      views.Pairwise (fun a b => nameLe a.name b.name = true) ∧
      (getShopsByDistributor dbDedup 1 none).2 =
        (syncDistributorShopCounts dbDedup 1).1 :=
  (getShops_spec dbDedup 1 none).2 distributorDedup rfl

theorem deleteShop_ok (db : DB) (i : Nat) (s : Shop) (hs : findShop db i = some s) :
    (deleteShop db i).1 = Except.ok () := by
  unfold deleteShop
  rw [hs]
  dsimp only
  cases findDistributor (updateShopById db i (fun x => { x with isActive := false }))
      s.distributorId with
  | none => rfl
  | some dist => rfl

theorem deleteShop_shops (db : DB) (i : Nat) (s : Shop) (hs : findShop db i = some s) :
    (deleteShop db i).2.shops =
      db.shops.map (fun x => if x.id == i then { x with isActive := false } else x) := by
  unfold deleteShop
  rw [hs]
  dsimp only
  cases h2 : findDistributor (updateShopById db i (fun x => { x with isActive := false }))
      s.distributorId with
  | none => rfl
  | some dist =>
    dsimp only
    rw [sync_fst_shops]
    split
    · rfl
    · rfl

theorem map_ite_id {α : Type} (p : α → Bool) (f : α → α) (l : List α)
    (h : ∀ x ∈ l, p x = true → f x = x) :
    l.map (fun x => if p x then f x else x) = l := by
  induction l with
  | nil => rfl
  | cons a l ih =>
    rw [List.map_cons, ih (fun x hx => h x (List.mem_cons_of_mem a hx))]
    cases hp : p a with
    | true => rw [if_pos rfl, h a (List.mem_cons_self a l) hp]
    | false => rw [if_neg Bool.false_ne_true]

theorem Shop_deactivate_eq (x : Shop) (h : x.isActive = false) :
    { x with isActive := false } = x := by
  cases x with
  | mk i n o a t d act c =>
    subst h
    rfl

theorem deleteShop_inactive_at (db : DB) (i : Nat) (s : Shop)
    (hs : findShop db i = some s) :
    ∀ x ∈ (deleteShop db i).2.shops, x.id = i → x.isActive = false := by
  intro x hx hxi
  rw [deleteShop_shops db i s hs] at hx
  obtain ⟨y, hy, hgy⟩ := List.mem_map.mp hx
  cases hyi : y.id == i with
  | true =>
    rw [hyi, if_pos rfl] at hgy
    rw [← hgy]
  | false =>
    rw [hyi, if_neg Bool.false_ne_true] at hgy
    subst hgy
    exact absurd hxi (by simpa using hyi)

theorem syncTotals_filter_inactive (db : DB) (i : Nat)
    (hin : ∀ x ∈ db.shops, x.id = i → x.isActive = false)
    (j : Nat) (dj : Distributor) :
    syncTotals db j dj =
      syncTotals { db with shops := db.shops.filter (fun x => !(x.id == i)) } j dj := by
  have key : ∀ p : Shop → Bool, (∀ x, p x = true → x.isActive = true) →
      db.shops.filter p = (db.shops.filter (fun x => !(x.id == i))).filter p := by
    intro p hp
    rw [List.filter_filter]
    refine List.filter_congr (fun x hx => ?_)
    cases hpx : p x with
    | false => rfl
    | true =>
      have hact : x.isActive = true := hp x hpx
      have hne : (x.id == i) = false := by
        cases hxi : x.id == i with
        | false => rfl
        | true =>
          have : x.isActive = false := hin x hx (by simpa using hxi)
          rw [hact] at this
          cases this
      rw [hne]
      rfl
  unfold syncTotals
  dsimp only
  rw [← key (fun s => s.distributorId == j && s.type == ShopType.Retailer && s.isActive)
      (fun x hx => by
        simp only [Bool.and_eq_true] at hx
        exact hx.2),
    ← key (fun s => s.distributorId == j && s.type == ShopType.WholeSeller && s.isActive)
      (fun x hx => by
        simp only [Bool.and_eq_true] at hx
        exact hx.2),
    ← key (fun s => s.distributorId == j && s.isActive)
      (fun x hx => by
        simp only [Bool.and_eq_true] at hx
        exact hx.2)]

theorem deleteShop_findDistributor (db : DB) (i : Nat) (s : Shop) (d : Distributor)
    (hs : findShop db i = some s) (hd : findDistributor db s.distributorId = some d) :
    ∃ dFin, findDistributor (deleteShop db i).2 s.distributorId = some dFin ∧
      dFin.arrayFor s.type = (d.arrayFor s.type).filter (fun e =>
        !(e.shopName == s.name && e.ownerName == s.ownerName &&
          e.address == s.address)) := by
  have hd1 : findDistributor (updateShopById db i (fun x => { x with isActive := false }))
      s.distributorId = some d := hd
  have hid : (d.id == s.distributorId) = true :=
    @List.find?_some Distributor (fun x => x.id == s.distributorId) d db.distributors hd
  unfold deleteShop
  rw [hs]
  dsimp only
  rw [hd1]
  dsimp only
  cases hidx : (List.findIdx? (fun e => e.shopName == s.name &&
      e.ownerName == s.ownerName && e.address == s.address)
      (d.arrayFor s.type)).isSome with
  | true =>
    rw [if_pos rfl]
    have hpd : findDistributor (pullLegacy
        (updateShopById db i (fun x => { x with isActive := false }))
        s.distributorId s.type s.name s.ownerName s.address) s.distributorId =
        some (if s.type == ShopType.Retailer then
          { d with retailShops := d.retailShops.filter (fun e =>
              !(e.shopName == s.name && e.ownerName == s.ownerName &&
                e.address == s.address)) }
        else
          { d with wholesaleShops := d.wholesaleShops.filter (fun e =>
              !(e.shopName == s.name && e.ownerName == s.ownerName &&
                e.address == s.address)) }) := by
      unfold pullLegacy
      rw [findDistributor_update _ _ _ _
        (fun x => by cases s.type == ShopType.Retailer <;> rfl)]
      rw [hd1, Option.map_some']
      simp only [hid, if_true]
    rw [sync_findSelf _ s.distributorId _ hpd]
    refine ⟨_, rfl, ?_⟩
    cases hst : s.type with
    | Retailer => rfl
    | WholeSeller => rfl
  | false =>
    rw [if_neg Bool.false_ne_true]
    rw [sync_findSelf _ s.distributorId d hd1]
    have hnone : List.findIdx? (fun e => e.shopName == s.name &&
        e.ownerName == s.ownerName && e.address == s.address)
        (d.arrayFor s.type) = none := by
      rcases hopt : List.findIdx? (fun e => e.shopName == s.name &&
          e.ownerName == s.ownerName && e.address == s.address)
          (d.arrayFor s.type) with _ | v
      · exact hopt
      · rw [hopt] at hidx
        cases hidx
    have hall := List.findIdx?_eq_none_iff.mp hnone
    have hself : (d.arrayFor s.type).filter (fun e =>
        !(e.shopName == s.name && e.ownerName == s.ownerName &&
          e.address == s.address)) = d.arrayFor s.type :=
      List.filter_eq_self.mpr (fun e he => by rw [hall e he]; rfl)
    refine ⟨_, rfl, ?_⟩
    rw [hself]
    rfl

theorem deleteShop_findShop (db : DB) (i : Nat) (s : Shop)
    (hs : findShop db i = some s) :
    findShop (deleteShop db i).2 i = some { s with isActive := false } := by
  have hid : (s.id == i) = true :=
    @List.find?_some Shop (fun x => x.id == i) s db.shops hs
  show (deleteShop db i).2.shops.find? (fun x => x.id == i) = _
  rw [deleteShop_shops db i s hs]
  rw [find?_map_pred_inv (fun x => x.id == i)
    (fun x => if x.id == i then { x with isActive := false } else x)
    (fun a => by cases h : (a.id == i) <;> simp [h]) db.shops]
  rw [show db.shops.find? (fun x => x.id == i) = some s from hs, Option.map_some']
  simp [hid]

/-- C8: for an existing shop whose distributor exists, deleteShop answers
success; the Shop record remains, all fields unchanged except isActive
set to false; every legacy entry exactly matching the shop's name,
ownerName and address is removed from the distributor's array for the
shop's type; the shop appears in no non-legacy view of any later listing
of that distributor; the soft-deleted record is ignored by the syncCounts
totals (removing every shop with that id from the store changes no
total); and repeating deleteShop on the already-inactive shop is a no-op
success returning the same state. -/
theorem deleteShop_soft_delete (db : DB) (i : Nat) (s : Shop) (d : Distributor)
    (hs : findShop db i = some s)
    (hd : findDistributor db s.distributorId = some d) :
    (deleteShop db i).1 = Except.ok () ∧
    findShop (deleteShop db i).2 i = some { s with isActive := false } ∧
    (findDistributor (deleteShop db i).2 s.distributorId).map
      (fun x => x.arrayFor s.type) =
      some ((d.arrayFor s.type).filter (fun e =>
        !(e.shopName == s.name && e.ownerName == s.ownerName &&
          e.address == s.address))) ∧
    (∀ tf views v, (getShopsByDistributor (deleteShop db i).2 s.distributorId tf).1 =
        Except.ok views → v ∈ views → v.isLegacy = false → v.id ≠ i) ∧
    (∀ j dj, syncTotals (deleteShop db i).2 j dj =
      syncTotals { (deleteShop db i).2 with
        shops := (deleteShop db i).2.shops.filter (fun x => !(x.id == i)) } j dj) ∧
    deleteShop (deleteShop db i).2 i = (Except.ok (), (deleteShop db i).2) := by
  have hin := deleteShop_inactive_at db i s hs
  have h2 := deleteShop_findShop db i s hs
  obtain ⟨dFin, hdf, harr⟩ := deleteShop_findDistributor db i s d hs hd
  refine ⟨deleteShop_ok db i s hs, h2, ?_, ?_, ?_, ?_⟩
  · rw [hdf, Option.map_some', harr]
  · intro tf views v hok hv hlegF heq
    rcases getShops_views_mem _ _ tf views v hok hv with
      ⟨s2, ⟨hs2mem, hs2pred⟩, rfl⟩ | ⟨hleg, _, _⟩
    · have hact2 : s2.isActive = true := by
        unfold shopMatchesQuery at hs2pred
        simp only [Bool.and_eq_true] at hs2pred
        exact hs2pred.1.2
      have hfalse : s2.isActive = false := hin s2 hs2mem heq
      rw [hact2] at hfalse
      cases hfalse
    · rw [hlegF] at hleg
      cases hleg
  · intro j dj
    exact syncTotals_filter_inactive _ i hin j dj
  · have hupd : updateShopById (deleteShop db i).2 i
        (fun x => { x with isActive := false }) = (deleteShop db i).2 := by
      unfold updateShopById
      rw [map_ite_id (fun x => x.id == i) (fun x => { x with isActive := false })
        (deleteShop db i).2.shops
        (fun x hx hpx => Shop_deactivate_eq x (hin x hx (by simpa using hpx)))]
    rcases deleteShop_result_synced db i s hs with ⟨hnone, _⟩ | ⟨dbMid, hmid⟩
    · rw [hd] at hnone
      cases hnone
    · have hcons : countsConsistent (deleteShop db i).2 s.distributorId := by
        rw [hmid]
        exact countsConsistent_sync dbMid s.distributorId
      have hsync2 := sync_of_consistent _ _ hcons
      clear hin hmid hcons
      revert h2 hupd hdf hsync2
      generalize (deleteShop db i).2 = R
      intro h2 hdf hupd hsync2
      unfold deleteShop
      rw [h2]
      dsimp only
      rw [hupd]
      rw [hdf]
      dsimp only
      have hnone2 : List.findIdx? (fun e => e.shopName == s.name &&
          e.ownerName == s.ownerName && e.address == s.address)
          (dFin.arrayFor s.type) = none := by
        refine List.findIdx?_eq_none_iff.mpr (fun e he => ?_)
        rw [harr] at he
        have hmf := (List.mem_filter.mp he).2
        cases hpe : (e.shopName == s.name && e.ownerName == s.ownerName &&
            e.address == s.address) with
        | false => rfl
        | true =>
          rw [hpe] at hmf
          cases hmf
      rw [hnone2]
      rw [if_neg (by simp)]
      rw [hsync2]

/-- Witness for deleteShop_soft_delete at the dbDelete fixture. -/
theorem deleteShop_soft_delete_w :
    (deleteShop dbDelete 4).1 = Except.ok () ∧
    findShop (deleteShop dbDelete 4).2 4 =
      some { id := 4, name := "S", ownerName := "O", address := "Ad",
             type := ShopType.Retailer, distributorId := 1, isActive := false,
             createdBy := 0 } ∧
    (findDistributor (deleteShop dbDelete 4).2 1).map
      (fun x => x.arrayFor ShopType.Retailer) =
      some (([{ id := 1, shopName := "S", ownerName := "O", address := "Ad" }] :
          List LegacyEntry).filter (fun e =>
        !(e.shopName == "S" && e.ownerName == "O" && e.address == "Ad"))) ∧
    (∀ tf views v, (getShopsByDistributor (deleteShop dbDelete 4).2 1 tf).1 =
        Except.ok views → v ∈ views → v.isLegacy = false → v.id ≠ 4) ∧
    (∀ j dj, syncTotals (deleteShop dbDelete 4).2 j dj =
      syncTotals { (deleteShop dbDelete 4).2 with
        shops := (deleteShop dbDelete 4).2.shops.filter
          (fun x => !(x.id == 4)) } j dj) ∧
    deleteShop (deleteShop dbDelete 4).2 4 =
      (Except.ok (), (deleteShop dbDelete 4).2) :=
  deleteShop_soft_delete dbDelete 4
    { id := 4, name := "S", ownerName := "O", address := "Ad",
      type := ShopType.Retailer, distributorId := 1, isActive := true,
      createdBy := 0 }
    { id := 1,
      retailShops := [{ id := 1, shopName := "S", ownerName := "O", address := "Ad" }],
      wholesaleShops := [], retailShopCount := 1, wholesaleShopCount := 0 }
    rfl rfl

/-- A conditional Reconciler call never changes the shops collection. -/
theorem syncIf_shops (db : DB) (did : Nat) (syncOk : Bool) :
    (if syncOk = true then (syncDistributorShopCounts db did).1 else db).shops =
      db.shops := by
  cases syncOk
  · rfl
  · exact sync_fst_shops db did

/-- With both secondary steps succeeding, addShopF is addShop. -/
theorem addShopF_true_eq (db : DB) (inp : AddShopInput) :
    addShopF db inp true true = addShop db inp := by
  unfold addShopF addShop
  cases h1 : findDistributor db inp.distributorId with
  | none => rfl
  | some dist =>
    dsimp only
    cases h2 : db.shops.find? (fun s =>
        s.name == inp.name && s.distributorId == inp.distributorId && s.isActive) with
    | some _ => rfl
    | none =>
      dsimp only
      by_cases hex : (!(dist.arrayFor inp.type).any (fun s =>
          s.shopName == inp.name && s.ownerName == inp.ownerName &&
            s.address == inp.address)) = true
      · rw [if_pos hex, if_pos hex]
        rfl
      · rw [if_neg hex, if_neg hex]
        rfl

/-- With both secondary steps succeeding, updateShopF is updateShop. -/
theorem updateShopF_true_eq (db : DB) (sid : Nat) (inp : UpdateShopInput) :
    updateShopF db sid inp true true = updateShop db sid inp := by
  unfold updateShopF updateShop
  cases h1 : findShop db sid with
  | none => rfl
  | some s0 =>
    dsimp only
    by_cases hm : (match inp.distributorId with
      | none => false
      | some nd => nd != s0.distributorId && (findDistributor db nd).isNone) = true
    · rw [if_pos hm, if_pos hm]
    · rw [if_neg hm, if_neg hm]
      rw [findDistributor_updateShopById]
      cases h2 : findDistributor db s0.distributorId with
      | none => rfl
      | some dOrig =>
        (try dsimp only)
        rw [show (updateShopMirrorAttempted inp s0 dOrig && !true) = false from
          Bool.and_false _]
        rw [if_neg Bool.false_ne_true]
        rfl

/-- With both secondary steps succeeding, deleteShopF is deleteShop. -/
theorem deleteShopF_true_eq (db : DB) (sid : Nat) :
    deleteShopF db sid true true = deleteShop db sid := by
  unfold deleteShopF deleteShop
  cases h1 : findShop db sid with
  | none => rfl
  | some s =>
    dsimp only
    rw [findDistributor_updateShopById]
    cases h2 : findDistributor db s.distributorId with
    | none => rfl
    | some d =>
      dsimp only
      by_cases hidx : (((d.arrayFor s.type).findIdx? (fun e =>
          e.shopName == s.name && e.ownerName == s.ownerName &&
            e.address == s.address)).isSome) = true
      · rw [if_pos hidx, if_pos hidx]
        rfl
      · rw [if_neg hidx, if_neg hidx]
        rfl

/-- With the Reconciler step succeeding, getShopsByDistributorF is
getShopsByDistributor. -/
theorem getShopsByDistributorF_true_eq (db : DB) (did : Nat)
    (t : Option ShopType) :
    getShopsByDistributorF db did t true = getShopsByDistributor db did t := by
  unfold getShopsByDistributorF getShopsByDistributor
  cases h : findDistributor db did with
  | none => rfl
  | some d => rfl

/-- C7 (amended): for each of the four operations whose primary Shop
Store step succeeds, the two best-effort secondary steps behave
asymmetrically.  A failure of the Reconciler's syncCounts step is
swallowed by its internal try/catch, so it never causes the operation to
be reported as failed (the syncOk flag never affects a success result,
and the listing's response is unchanged by it); but a failure of an
attempted Legacy Mirror write propagates to the controller's outer
catch, which forwards it to the error middleware (next(error)), so the
operation IS reported as failed.  In every case — either flag, either
outcome — the committed Shop Store change (the created shop, the updated
document, the soft delete) is never rolled back. -/
theorem failure_semantics_ops (db : DB) (mirrorOk syncOk : Bool) :
    (∀ inp dist, findDistributor db inp.distributorId = some dist →
      db.shops.find? (fun s => s.name == inp.name &&
        s.distributorId == inp.distributorId && s.isActive) = none →
      (addShopF db inp mirrorOk syncOk).2.shops =
        db.shops ++ [createdShop db inp] ∧
      (mirrorOk = true → (addShopF db inp mirrorOk syncOk).1 =
        Except.ok (createdShop db inp)) ∧
      (mirrorOk = false →
        (dist.arrayFor inp.type).any (fun s => s.shopName == inp.name &&
          s.ownerName == inp.ownerName && s.address == inp.address) = false →
        (addShopF db inp mirrorOk syncOk).1 =
          Except.error ApiError.ServerError)) ∧
    (∀ sid inp s0 dOrig, findShop db sid = some s0 →
      (match inp.distributorId with
        | none => false
        | some nd => nd != s0.distributorId &&
            (findDistributor db nd).isNone) = false →
      findDistributor db s0.distributorId = some dOrig →
      (updateShopF db sid inp mirrorOk syncOk).2.shops =
        db.shops.map (fun x => if x.id == sid then updatedShop s0 inp else x) ∧
      (mirrorOk = true → (updateShopF db sid inp mirrorOk syncOk).1 =
        Except.ok (updatedShop s0 inp)) ∧
      (mirrorOk = false → updateShopMirrorAttempted inp s0 dOrig = true →
        (updateShopF db sid inp mirrorOk syncOk).1 =
          Except.error ApiError.ServerError)) ∧
    (∀ sid s d, findShop db sid = some s →
      findDistributor db s.distributorId = some d →
      (deleteShopF db sid mirrorOk syncOk).2.shops =
        db.shops.map (fun x =>
          if x.id == sid then { x with isActive := false } else x) ∧
      (mirrorOk = true → (deleteShopF db sid mirrorOk syncOk).1 =
        Except.ok ()) ∧
      (mirrorOk = false →
        ((d.arrayFor s.type).findIdx? (fun e => e.shopName == s.name &&
          e.ownerName == s.ownerName && e.address == s.address)).isSome = true →
        (deleteShopF db sid mirrorOk syncOk).1 =
          Except.error ApiError.ServerError)) ∧
    (∀ did t, (getShopsByDistributorF db did t syncOk).1 =
      (getShopsByDistributor db did t).1) := by
  refine ⟨?_, ?_, ?_, ?_⟩
  · intro inp dist hd hc
    refine ⟨?_, ?_, ?_⟩
    · unfold addShopF
      rw [hd]
      dsimp only
      rw [hc]
      dsimp only
      by_cases hex : (!(dist.arrayFor inp.type).any (fun s =>
          s.shopName == inp.name && s.ownerName == inp.ownerName &&
            s.address == inp.address)) = true
      · rw [if_pos hex]
        cases mirrorOk
        · rw [if_neg Bool.false_ne_true]
        · rw [if_pos rfl]
          dsimp only
          rw [syncIf_shops]
          rfl
      · rw [if_neg hex]
        dsimp only
        rw [syncIf_shops]
    · intro hmk
      subst hmk
      unfold addShopF
      rw [hd]
      dsimp only
      rw [hc]
      dsimp only
      by_cases hex : (!(dist.arrayFor inp.type).any (fun s =>
          s.shopName == inp.name && s.ownerName == inp.ownerName &&
            s.address == inp.address)) = true
      · rw [if_pos hex]
        rfl
      · rw [if_neg hex]
    · intro hmk hex
      subst hmk
      unfold addShopF
      rw [hd]
      dsimp only
      rw [hc]
      dsimp only
      rw [hex]
      rfl
  · intro sid inp s0 dOrig hs hm hdo
    have hm2 : ¬ ((match inp.distributorId with
      | none => false
      | some nd => nd != s0.distributorId &&
          (findDistributor db nd).isNone) = true) := by
      rw [hm]
      exact Bool.false_ne_true
    refine ⟨?_, ?_, ?_⟩
    · unfold updateShopF
      rw [hs]
      dsimp only
      rw [if_neg hm2]
      rw [findDistributor_updateShopById, hdo]
      dsimp only
      by_cases hatt : (updateShopMirrorAttempted inp s0 dOrig && !mirrorOk) = true
      · rw [if_pos hatt]
        rfl
      · rw [if_neg hatt]
        dsimp only
        split
        · rw [syncIf_shops, syncIf_shops]
          repeat' split
          all_goals rfl
        · rw [syncIf_shops]
          repeat' split
          all_goals rfl
    · intro hmk
      subst hmk
      unfold updateShopF
      rw [hs]
      dsimp only
      rw [if_neg hm2]
      rw [findDistributor_updateShopById, hdo]
      dsimp only
      rw [show (updateShopMirrorAttempted inp s0 dOrig && !true) = false from
        Bool.and_false _]
      rw [if_neg Bool.false_ne_true]
      rfl
    · intro hmk hatt
      subst hmk
      unfold updateShopF
      rw [hs]
      dsimp only
      rw [if_neg hm2]
      rw [findDistributor_updateShopById, hdo]
      dsimp only
      rw [show (updateShopMirrorAttempted inp s0 dOrig && !false) = true from by
        simp [hatt]]
      rfl
  · intro sid s d hs hd2
    refine ⟨?_, ?_, ?_⟩
    · unfold deleteShopF
      rw [hs]
      dsimp only
      rw [findDistributor_updateShopById, hd2]
      dsimp only
      by_cases hidx : (((d.arrayFor s.type).findIdx? (fun e =>
          e.shopName == s.name && e.ownerName == s.ownerName &&
            e.address == s.address)).isSome) = true
      · rw [if_pos hidx]
        cases mirrorOk
        · rw [if_neg Bool.false_ne_true]
          rfl
        · rw [if_pos rfl]
          dsimp only
          rw [syncIf_shops]
          rfl
      · rw [if_neg hidx]
        dsimp only
        rw [syncIf_shops]
        rfl
    · intro hmk
      subst hmk
      unfold deleteShopF
      rw [hs]
      dsimp only
      rw [findDistributor_updateShopById, hd2]
      dsimp only
      by_cases hidx : (((d.arrayFor s.type).findIdx? (fun e =>
          e.shopName == s.name && e.ownerName == s.ownerName &&
            e.address == s.address)).isSome) = true
      · rw [if_pos hidx]
        rfl
      · rw [if_neg hidx]
    · intro hmk hidx
      subst hmk
      unfold deleteShopF
      rw [hs]
      dsimp only
      rw [findDistributor_updateShopById, hd2]
      dsimp only
      rw [if_pos hidx]
      rfl
  · intro did t
    unfold getShopsByDistributorF getShopsByDistributor
    cases h : findDistributor db did with
    | none => rfl
    | some d => rfl

/-- Witness for failure_semantics_ops: the addShop conjunct at the
one-distributor fixture with a failing mirror write (mirrorOk false,
syncOk true); the distributor's legacy array is empty, so the mirror
write is attempted and the request is answered with ServerError while
the created shop stays committed. -/
theorem failure_semantics_ops_w :
    (addShopF dbOneDistributor inpNandu false true).2.shops =
      dbOneDistributor.shops ++ [createdShop dbOneDistributor inpNandu] ∧
    (false = true → (addShopF dbOneDistributor inpNandu false true).1 =
      Except.ok (createdShop dbOneDistributor inpNandu)) ∧
    (false = false →
      (Distributor.arrayFor
          { id := 1, retailShops := [], wholesaleShops := [],
            retailShopCount := 0, wholesaleShopCount := 0 }
          inpNandu.type).any
        (fun s => s.shopName == inpNandu.name &&
          s.ownerName == inpNandu.ownerName &&
            s.address == inpNandu.address) = false →
      (addShopF dbOneDistributor inpNandu false true).1 =
        Except.error ApiError.ServerError) :=
  (failure_semantics_ops dbOneDistributor false true).1 inpNandu
    { id := 1, retailShops := [], wholesaleShops := [],
      retailShopCount := 0, wholesaleShopCount := 0 }
    rfl rfl
